import Mathlib

/-!
# Host check-in, reconciliation and dual-transport publishing

A shallow embedding of `functions/mqpublish.go` and `functions/push.go`.

Conventions of the embedding.

* Go `error` values are strings, `nil` is `none`.
* A Go function with side effects returns, next to its Go result, the list of
  side effects it performed, in program order (`Event`).  Calls of `publish`,
  `PublishHostUpdate` and `hostUpdateFallback` are recorded on entry, so that
  an invocation is visible even when the function returns before touching the
  network.
* Process-wide values that the code only reads during one tick (the server
  table, the node table, the current server, the probes, the results of the
  external services) are fields of `World`.  The values the code writes (the
  in-memory host configuration and its copy on disk) are fields of `State`.
* `json.Marshal` and `Chunk` are symbolic: the serialised form of a value is
  the value itself under a constructor of `Plain`, the ciphertext is the
  plaintext together with the two keys under `Payload.chunked`.
* Log calls are not recorded.
* `config.Netclient()` and `Mqclient` are assumed non-nil wherever the source
  dereferences them without a check.
-/

set_option linter.dupNamespace false

namespace Netclient

/-! ## Data model -/

/-- A Go `error` value. -/
abbrev Err := String

/-- A Go `net.IP`: `none` is the nil slice, `some bs` a slice of bytes. -/
abbrev IP := Option (List Nat)

/-- The bytes of a `net.IP`, the nil slice having none. -/
def ipBytes : IP → List Nat
  | none => []
  | some bs => bs

/-- The prefix `v4InV6Prefix` of package `net`. -/
def v4InV6Prefix : List Nat := [0, 0, 0, 0, 0, 0, 0, 0, 0, 0, 255, 255]

/-- The method `net.IP.Equal` of the Go standard library. -/
def ipEqual (ip x : IP) : Bool :=
  let a := ipBytes ip
  let b := ipBytes x
  if a.length = b.length then a == b
  else if a.length = 4 ∧ b.length = 16 then
    (b.take 12 == v4InV6Prefix) && (a == b.drop 12)
  else if a.length = 16 ∧ b.length = 4 then
    (a.take 12 == v4InV6Prefix) && (a.drop 12 == b)
  else false

/-- The value `net.IPv4zero`, in its 16-byte form. -/
def IPv4zero : IP := some (v4InV6Prefix ++ [0, 0, 0, 0])

/-- The value `net.IPv6unspecified`. -/
def IPv6unspecified : IP := some (List.replicate 16 0)

/-- The method `net.IP.IsUnspecified` of the Go standard library. -/
def ipIsUnspecified (ip : IP) : Bool :=
  ipEqual ip IPv4zero || ipEqual ip IPv6unspecified

/-- A local interface, `models.Iface`. -/
structure Iface where
  Name : String
  Address : String
  deriving DecidableEq, Repr

/-- The part of the host configuration that travels to the server,
`models.Host`. -/
structure Host where
  ID : String
  Name : String
  EndpointIP : IP
  WgPublicListenPort : Int
  NatType : String
  Interfaces : List Iface
  DefaultInterface : String
  IsStatic : Bool
  FirewallInUse : String
  deriving DecidableEq, Repr

/-- The local host configuration, `config.Config`: the embedded `models.Host`
and the private traffic key, which never leaves the host. -/
structure Config where
  Host : Host
  TrafficKeyPrivate : List Nat
  deriving DecidableEq, Repr

/-- A controller record, `config.Server`. -/
structure Server where
  Name : String
  Server : String
  API : String
  IsPro : Bool
  TrafficKey : List Nat
  deriving DecidableEq, Repr

/-- A membership record, `config.Node`. -/
structure Node where
  Server : String
  Network : String
  ID : String
  Connected : Bool
  deriving DecidableEq, Repr

/-- The controller's view of a node, `models.Node`; `{}` is the zero value. -/
structure ModelsNode where
  ID : String := ""
  Network : String := ""
  deriving DecidableEq, Repr

/-- The answer of `GET /api/nodes/{network}/{nodeID}`, `models.NodeGet`. -/
structure NodeGet where
  Node : ModelsNode
  PeerIDs : List String
  deriving DecidableEq, Repr

/-- The collected counters, `models.Metrics`. -/
structure Metrics where
  Network : String
  NodeName : String
  NodeID : String
  Connectivity : List (String × Nat)
  deriving DecidableEq, Repr

/-- An out-of-band peer signal, `models.Signal`; `{}` is the zero value. -/
structure Signal where
  FromHostPubKey : String := ""
  ToHostPubKey : String := ""
  Reply : Bool := false
  deriving DecidableEq, Repr

/-- The action tag of a host update, `models.HostMqAction`. -/
inductive HostMqAction where
  | CheckIn
  | UpdateHost
  | UpdateMetrics
  | SignalHost
  deriving DecidableEq, Repr

/-- The wire envelope, `models.HostUpdate`. -/
structure HostUpdate where
  Action : HostMqAction
  Host : Host
  Node : ModelsNode := {}
  Signal : Signal := {}
  deriving DecidableEq, Repr

/-- What `publish` is given as `msg`: the serialised form of a value, kept
symbolic.  `hostUpdate`, `metrics` and `node` stand for `json.Marshal` of the
value, `bytes` for a literal byte slice. -/
inductive Plain where
  | hostUpdate (u : HostUpdate)
  | metrics (m : Metrics)
  | node (n : Node)
  | bytes (bs : List Nat)
  deriving DecidableEq, Repr

/-- A traffic key as produced by `ncutils.ConvertBytesToKey`. -/
abbrev Key := List Nat

/-- What the pub/sub client is given as payload: raw bytes, or the output of
`Chunk` for a message, the recipient's public key and the sender's private
key. -/
inductive Payload where
  | raw (bs : List Nat)
  | chunked (msg : Plain) (recipient : Key) (sender : Key)
  deriving DecidableEq, Repr

/-- The token returned by `Mqclient.Publish`, as `publish` observes it:
whether `WaitTimeout(30*time.Second)` returned true, and `Error()`, taken to
return the same value at each of its calls. -/
structure Token where
  WaitTimeout : Bool
  Error : Option Err
  deriving DecidableEq, Repr

/-- The pub/sub client handle, as the scheduler observes it. -/
structure MqClient where
  IsConnectionOpen : Bool
  deriving DecidableEq, Repr

/-- The side effects of the modelled functions. -/
inductive Event where
  /-- entry into `publish(serverName, dest, msg, qos)` -/
  | publish (serverName dest : String) (msg : Plain) (qos : Nat)
  /-- the call `Mqclient.Publish(topic, qos, retained, payload)` -/
  | mqPublish (topic : String) (qos : Nat) (retained : Bool) (payload : Payload)
  /-- entry into `PublishHostUpdate(server, hostAction)` -/
  | publishHostUpdate (server : String) (hostAction : HostMqAction)
  /-- entry into `hostUpdateFallback(action, node)` -/
  | hostUpdateFallback (action : HostMqAction) (node : Option ModelsNode)
  /-- the HTTPS PUT issued by `hostUpdateFallback` -/
  | httpPut (url route : String) (data : HostUpdate) (authorization : String)
  /-- the call `config.WriteNetclientConfig()`, with the configuration it was
  asked to write and whether it succeeded -/
  | writeNetclientConfig (cfg : Config) (ok : Bool)
  /-- the call `config.SetFirewall()` -/
  | setFirewall
  /-- the statement `go publishMetrics(&node, fallback)` -/
  | goPublishMetrics (node : Node) (fallback : Bool)
  /-- the call `daemon.Restart()` -/
  | daemonRestart
  /-- the call `daemon.Start()` -/
  | daemonStart
  deriving DecidableEq, Repr

/-- Everything the code reads but does not write during one tick. -/
structure World where
  /-- The value of `config.CurrServer` -/
  CurrServer : String
  /-- The value of `config.Servers`, after `config.ReadServerConf()` -/
  Servers : List (String × Server)
  /-- The value of `config.GetNodes()`, after `config.ReadNodeConfig()` -/
  Nodes : List Node
  /-- the package variable `Mqclient` -/
  Mqclient : Option MqClient
  /-- The value of `config.HostPublicIP` -/
  HostPublicIP : IP
  /-- The value of `config.WgPublicListenPort` -/
  WgPublicListenPort : Int
  /-- The value of `config.HostNatType` -/
  HostNatType : String
  /-- the result of `getInterfaces()`: an error, or a possibly nil pointer
  to the list of interfaces -/
  getInterfaces : Except Err (Option (List Iface))
  /-- the result of `getDefaultInterface()` -/
  getDefaultInterface : Except Err String
  /-- The value of `ncutils.GetInterfaceName()` -/
  GetInterfaceName : String
  /-- The value of `config.FirewallHasChanged()` -/
  FirewallHasChanged : Bool
  /-- the firewall marker that `config.SetFirewall()` stores -/
  DetectedFirewall : String
  /-- the error of `config.WriteNetclientConfig()` for a configuration -/
  writeError : Config → Option Err
  /-- The value of `auth.Authenticate(server, host)` -/
  Authenticate : Server → Config → Except Err String
  /-- the GET of `publishMetrics`, by URL and authorization header -/
  getNode : String → String → Except Err NodeGet
  /-- the error of the PUT of `hostUpdateFallback` -/
  putError : String → String → HostUpdate → String → Option Err
  /-- The value of `url.QueryEscape` -/
  QueryEscape : String → String
  /-- The value of `metrics.Collect(network, peerIDs)` -/
  Collect : String → List String → Except Err Metrics
  /-- the error of `json.Marshal` for a value -/
  marshalError : Plain → Option Err
  /-- The value of `ncutils.ConvertBytesToKey` -/
  ConvertBytesToKey : List Nat → Except Err Key
  /-- the error of `Chunk(msg, pub, priv)` -/
  chunkError : Plain → Key → Key → Option Err
  /-- the token `Mqclient.Publish` returns for a message -/
  token : String → Nat → Bool → Payload → Token
  /-- the error of `setupMQTTSingleton(server, true)` -/
  setupMQTTSingleton : Server → Option Err
  /-- the error of `daemon.Restart()` -/
  restartError : Option Err
  /-- the error of `daemon.Start()` -/
  startError : Option Err

/-- What the code writes: the in-memory host configuration
`config.Netclient()` and the copy of it in durable storage. -/
structure State where
  Netclient : Config
  Persisted : Config
  deriving DecidableEq, Repr

/-! ## External collaborators -/

/-- The lookup `config.GetServer(name)`: the server of that name, or nil. -/
def GetServer (w : World) (name : String) : Option Server :=
  w.Servers.lookup name

/-- Modelled from the spec: `Chunk`, the Key/Codec Layer, is not among the
source files.  It performs authenticated asymmetric encryption of one logical
message for the recipient's public key under the sender's private key and
returns one logical ciphertext, or fails with an encryption error; it never
partially encrypts. -/
def Chunk (w : World) (msg : Plain) (recipient sender : Key) : Except Err Payload :=
  match w.chunkError msg recipient sender with
  | some e => .error e
  | none => .ok (.chunked msg recipient sender)

/-- Modelled from the spec: `config.WriteNetclientConfig` is not among the
source files.  It persists the host configuration to durable storage, or
fails with a persistence error and leaves the stored copy as it was. -/
def WriteNetclientConfig (w : World) (st : State) : State × List Event × Option Err :=
  match w.writeError st.Netclient with
  | some e => (st, [.writeNetclientConfig st.Netclient false], some e)
  | none =>
    ({ st with Persisted := st.Netclient }, [.writeNetclientConfig st.Netclient true], none)

/-- Modelled from the spec: `config.SetFirewall` is not among the source
files.  It applies the detected firewall state to the host configuration. -/
def SetFirewall (w : World) (h : Host) : Host :=
  { h with FirewallInUse := w.DetectedFirewall }

/-! ## `functions/mqpublish.go` -/

/-- The constant `ACK`. -/
def ACK : Nat := 1

/-- The constant `DONE`. -/
def DONE : Nat := 2

/-- The function `publish(serverName, dest, msg, qos)`. -/
def publish (w : World) (st : State) (serverName dest : String) (msg : Plain) (qos : Nat) :
    List Event × Option Err :=
  let entry := Event.publish serverName dest msg qos
  match GetServer w serverName with
  | none => ([entry], some "server config is nil")
  | some server =>
    match w.ConvertBytesToKey server.TrafficKey with
    | .error e => ([entry], some e)
    | .ok serverPubKey =>
      match w.ConvertBytesToKey st.Netclient.TrafficKeyPrivate with
      | .error e => ([entry], some e)
      | .ok privateKey =>
        match Chunk w msg serverPubKey privateKey with
        | .error e => ([entry], some e)
        | .ok encrypted =>
          let token := w.token dest qos false encrypted
          let events := [entry, Event.mqPublish dest qos false encrypted]
          if !token.WaitTimeout || token.Error ≠ none then
            let err : Err :=
              match token.Error with
              | none => "connection timeout"
              | some e => e
            (events, some err)
          else (events, none)

/-- The function `hostUpdateFallback(action, node)`.  The guard `host == nil`
cannot fire, `config.Netclient()` being non-nil throughout; a status error
and any other error of the PUT are returned alike, the first after a log. -/
def hostUpdateFallback (w : World) (st : State) (action : HostMqAction)
    (node : Option ModelsNode) : List Event × Option Err :=
  let entry := Event.hostUpdateFallback action node
  let node' : ModelsNode :=
    match node with
    | none => {}
    | some n => n
  match GetServer w w.CurrServer with
  | none => ([entry], some "server config not found")
  | some server =>
    let host := st.Netclient
    match w.Authenticate server host with
    | .error e => ([entry], some e)
    | .ok token =>
      let url := "https://" ++ server.API
      let route := "/api/v1/fallback/host/" ++ w.QueryEscape host.Host.ID
      let data : HostUpdate := { Host := host.Host, Action := action, Node := node' }
      let authorization := "Bearer " ++ token
      ([entry, Event.httpPut url route data authorization],
        w.putError url route data authorization)

/-- The function `PublishHostUpdate(server, hostAction)`. -/
def PublishHostUpdate (w : World) (st : State) (server : String) (hostAction : HostMqAction) :
    List Event × Option Err :=
  let entry := Event.publishHostUpdate server hostAction
  let hostCfg := st.Netclient
  let hostUpdate : HostUpdate := { Action := hostAction, Host := hostCfg.Host }
  match w.marshalError (.hostUpdate hostUpdate) with
  | some e => ([entry], some e)
  | none =>
    let r := publish w st server ("host/serverupdate/" ++ server ++ "/" ++ hostCfg.Host.ID)
      (.hostUpdate hostUpdate) 1
    (entry :: r.1, r.2)

/-- The function `publishPeerSignal(server, signal)`. -/
def publishPeerSignal (w : World) (st : State) (server : String) (signal : Signal) :
    List Event × Option Err :=
  let hostCfg := st.Netclient
  let hostUpdate : HostUpdate :=
    { Action := .SignalHost, Host := hostCfg.Host, Signal := signal }
  match w.marshalError (.hostUpdate hostUpdate) with
  | some e => ([], some e)
  | none =>
    publish w st server ("host/serverupdate/" ++ server ++ "/" ++ hostCfg.Host.ID)
      (.hostUpdate hostUpdate) 1

/-- The function `publishSignal(node, signal)`. -/
def publishSignal (w : World) (st : State) (node : Node) (signal : Nat) :
    List Event × Option Err :=
  publish w st node.Server ("signal/" ++ node.Server ++ "/" ++ node.ID) (.bytes [signal]) 1

/-- Lines 207-209 of `publishMetrics`: the collected metrics are stamped with
the network of the node, the name of the host and the identifier of the node. -/
def stampMetrics (collected : Metrics) (node : Node) (hostName : String) : Metrics :=
  { collected with Network := node.Network, NodeName := hostName, NodeID := node.ID }

/-- The function `publishMetrics(node, fallback)`; it returns nothing.  A
status error and any other error of the GET end the cycle alike, after a
log. -/
def publishMetrics (w : World) (st : State) (node : Node) (fallback : Bool) : List Event :=
  match GetServer w node.Server with
  | none => []
  | some server =>
    match w.Authenticate server st.Netclient with
    | .error _ => []
    | .ok token =>
      let url := "https://" ++ server.API ++ "/api/nodes/" ++ node.Network ++ "/" ++ node.ID
      match w.getNode url ("Bearer " ++ token) with
      | .error _ => []
      | .ok nodeGET =>
        match w.Collect nodeGET.Node.Network nodeGET.PeerIDs with
        | .error _ => []
        | .ok collected =>
          let metrics := stampMetrics collected node st.Netclient.Host.Name
          match w.marshalError (.metrics metrics) with
          | some _ => []
          | none =>
            if fallback then
              (hostUpdateFallback w st .UpdateMetrics (some nodeGET.Node)).1
            else
              let r := publish w st node.Server
                ("metrics/" ++ node.Server ++ "/" ++ node.ID) (.metrics metrics) 1
              match r.2 with
              | some _ => r.1
              | none => r.1 ++ (hostUpdateFallback w st .UpdateMetrics (some nodeGET.Node)).1

/-- The local variables of `UpdateHostSettings` (`err`, `publishMsg`,
`restartDaemon`), the host configuration it works on and the effects of the
checks so far. -/
structure Locals where
  host : Host
  err : Option Err
  publishMsg : Bool
  restartDaemon : Bool
  events : List Event
  deriving DecidableEq, Repr

/-- Lines 277-287 of `UpdateHostSettings`: the endpoint check. -/
def checkEndpoint (w : World) (l : Locals) : Locals :=
  if !l.host.IsStatic then
    if l.host.EndpointIP = none then
      { l with host := { l.host with EndpointIP := w.HostPublicIP } }
    else
      if w.HostPublicIP ≠ none ∧ ipIsUnspecified w.HostPublicIP = false
          ∧ ipEqual l.host.EndpointIP w.HostPublicIP = false then
        { l with host := { l.host with EndpointIP := w.HostPublicIP }, publishMsg := true }
      else l
  else l

/-- Lines 288-291 of `UpdateHostSettings`: the listen port check. -/
def checkListenPort (w : World) (l : Locals) : Locals :=
  if w.WgPublicListenPort ≠ 0 ∧ l.host.WgPublicListenPort ≠ w.WgPublicListenPort then
    { l with host := { l.host with WgPublicListenPort := w.WgPublicListenPort },
             publishMsg := true }
  else l

/-- Lines 293-296 of `UpdateHostSettings`: the NAT type check. -/
def checkNatType (w : World) (l : Locals) : Locals :=
  if w.HostNatType ≠ "" ∧ l.host.NatType ≠ w.HostNatType then
    { l with host := { l.host with NatType := w.HostNatType }, publishMsg := true }
  else l

/-- Lines 297-306 of `UpdateHostSettings`: one `go publishMetrics(&node,
fallback)` for every connected node when the server is pro. -/
def metricsFanOut (w : World) (server : Server) (fallback : Bool) (l : Locals) : Locals :=
  if server.IsPro then
    let connected := List.filter (fun node => node.Connected) w.Nodes
    let started := List.map (fun node => Event.goPublishMetrics node fallback) connected
    { l with events := l.events ++ started }
  else l

/-- Lines 308-318 of `UpdateHostSettings`: the interface check.  The result
of `getInterfaces()` is assigned to the function's `err`. -/
def checkInterfaces (w : World) (l : Locals) : Locals :=
  match w.getInterfaces with
  | .error e => { l with err := some e }
  | .ok none => { l with err := none }
  | .ok (some ip) =>
    if ip.length ≠ l.host.Interfaces.length then
      { l with err := none, host := { l.host with Interfaces := ip }, publishMsg := true }
    else { l with err := none }

/-- Lines 319-329 of `UpdateHostSettings`: the default interface check.  The
result of `getDefaultInterface()` is assigned to the function's `err`. -/
def checkDefaultInterface (w : World) (l : Locals) : Locals :=
  match w.getDefaultInterface with
  | .error e => { l with err := some e }
  | .ok defaultInterface =>
    if defaultInterface ≠ l.host.DefaultInterface ∧ defaultInterface ≠ w.GetInterfaceName then
      { l with err := none, publishMsg := true,
               host := { l.host with DefaultInterface := defaultInterface } }
    else { l with err := none }

/-- Lines 330-333 of `UpdateHostSettings`: the firewall check. -/
def checkFirewall (w : World) (l : Locals) : Locals :=
  if w.FirewallHasChanged then
    { l with host := SetFirewall w l.host, events := l.events ++ [Event.setFirewall],
             publishMsg := true }
  else l

/-- Lines 267-333 of `UpdateHostSettings`: the declaration of the locals and
the checks, in source order, for the server found at line 273. -/
def runChecks (w : World) (server : Server) (fallback : Bool) (host : Host) : Locals :=
  let l0 : Locals :=
    { host := host, err := none, publishMsg := false, restartDaemon := false, events := [] }
  checkFirewall w (checkDefaultInterface w (checkInterfaces w
    (metricsFanOut w server fallback (checkNatType w (checkListenPort w
      (checkEndpoint w l0))))))

/-- Lines 347-351 of `UpdateHostSettings`: the daemon restart. -/
def restartIfNeeded (l : Locals) : List Event :=
  if l.restartDaemon then [Event.daemonRestart] else []

/-- The function `UpdateHostSettings(fallback)`. -/
def UpdateHostSettings (w : World) (st : State) (fallback : Bool) :
    State × List Event × Option Err :=
  match GetServer w w.CurrServer with
  | none => (st, [], some "server config is nil")
  | some server =>
    let l := runChecks w server fallback st.Netclient.Host
    let st1 : State := { st with Netclient := { st.Netclient with Host := l.host } }
    if l.publishMsg then
      match WriteNetclientConfig w st1 with
      | (st2, written, some e) => (st2, l.events ++ written, some e)
      | (st2, written, none) =>
        let sent :=
          if fallback then (hostUpdateFallback w st2 .UpdateHost none).1
          else (PublishHostUpdate w st2 w.CurrServer .UpdateHost).1
        (st2, l.events ++ written ++ sent ++ restartIfNeeded l, l.err)
    else (st1, l.events ++ restartIfNeeded l, l.err)

/-- The function `checkinFallback()`. -/
def checkinFallback (w : World) (st : State) : State × List Event :=
  match UpdateHostSettings w st true with
  | (st1, events, some _) => (st1, events)
  | (st1, events, none) => (st1, events ++ (hostUpdateFallback w st1 .CheckIn none).1)

/-- The function `checkin()`. -/
def checkin (w : World) (st : State) : State × List Event :=
  match UpdateHostSettings w st false with
  | (st1, events, some _) => (st1, events)
  | (st1, events, none) => (st1, events ++ (PublishHostUpdate w st1 w.CurrServer .CheckIn).1)

/-- The body of `case <-ticker.C` in `Checkin`: one scheduler tick. -/
def CheckinTick (w : World) (st : State) : State × List Event :=
  if w.CurrServer = "" then (st, [])
  else
    match w.Mqclient with
    | none => checkinFallback w st
    | some client =>
      if !client.IsConnectionOpen then checkinFallback w st
      else checkin w st

/-! ## `functions/push.go` -/

/-- The function `Push(restart)`. -/
def Push (w : World) (st : State) (restart : Bool) : State × List Event × Option Err :=
  let sent : List Event × Option Err :=
    match GetServer w w.CurrServer with
    | none => ([], none)
    | some server =>
      match w.setupMQTTSingleton server with
      | none => PublishHostUpdate w st server.Server .UpdateHost
      | some _ => hostUpdateFallback w st .UpdateHost none
  match sent.2 with
  | some e => (st, sent.1, some e)
  | none =>
    match WriteNetclientConfig w st with
    | (st1, written, some e) => (st1, sent.1 ++ written, some e)
    | (st1, written, none) =>
      if restart then
        match w.restartError with
        | none => (st1, sent.1 ++ written ++ [Event.daemonRestart], none)
        | some _ =>
          match w.startError with
          | none => (st1, sent.1 ++ written ++ [Event.daemonRestart, Event.daemonStart], none)
          | some e =>
            (st1, sent.1 ++ written ++ [Event.daemonRestart, Event.daemonStart],
              some ("daemon restart failed " ++ e))
      else (st1, sent.1 ++ written, none)

/-! ## Observations on a trace -/

/-- Whether an effect is an invocation of the Transport Publisher: an entry
into `PublishHostUpdate` or `publish`, or a call of `Mqclient.Publish`. -/
def Event.isTransportPublisher : Event → Bool
  | .publishHostUpdate _ _ => true
  | .publish _ _ _ _ => true
  | .mqPublish _ _ _ _ => true
  | _ => false

/-- Whether an effect is an entry into `publish`. -/
def Event.isPublishCall : Event → Bool
  | .publish _ _ _ _ => true
  | _ => false

/-- Whether an effect is a call of `Mqclient.Publish`. -/
def Event.isMqPublish : Event → Bool
  | .mqPublish _ _ _ _ => true
  | _ => false

/-- Whether an effect is an entry into `hostUpdateFallback`. -/
def Event.isFallbackCall : Event → Bool
  | .hostUpdateFallback _ _ => true
  | _ => false

/-- Whether an effect is a call of `config.WriteNetclientConfig`. -/
def Event.isWrite : Event → Bool
  | .writeNetclientConfig _ _ => true
  | _ => false

/-- Whether an effect sends, or is the entry into a function that sends, a
host update with the given action: through the Transport Publisher
(`PublishHostUpdate`, `publish`, `Mqclient.Publish`) or through the Fallback
Transport (`hostUpdateFallback`, the PUT). -/
def Event.sendsAction (a : HostMqAction) : Event → Bool
  | .publishHostUpdate _ a' => decide (a' = a)
  | .publish _ _ (.hostUpdate u) _ => decide (u.Action = a)
  | .mqPublish _ _ _ (.chunked (.hostUpdate u) _ _) => decide (u.Action = a)
  | .hostUpdateFallback a' _ => decide (a' = a)
  | .httpPut _ _ u _ => decide (u.Action = a)
  | _ => false

/-- Whether an effect is the entry into a function that sends an `UpdateHost`
message: `PublishHostUpdate(_, UpdateHost)` or
`hostUpdateFallback(UpdateHost, _)`. -/
def Event.isUpdateHostCall : Event → Bool
  | .publishHostUpdate _ .UpdateHost => true
  | .hostUpdateFallback .UpdateHost _ => true
  | _ => false

/-- The host configuration inside the envelope that an effect hands to a
transport: to the pub/sub client, or to the HTTPS PUT. -/
def Event.carriedHost : Event → Option Host
  | .mqPublish _ _ _ (.chunked (.hostUpdate u) _ _) => some u.Host
  | .httpPut _ _ u _ => some u.Host
  | _ => none

/-- Whether every envelope handed to a transport along a trace carries the
host configuration that is in durable storage at that moment, starting from
the stored configuration `persisted` and following every successful
`config.WriteNetclientConfig`. -/
def carriesPersisted (persisted : Host) : List Event → Bool
  | [] => true
  | .writeNetclientConfig cfg true :: rest => carriesPersisted cfg.Host rest
  | e :: rest =>
    (match e.carriedHost with
      | some h => decide (h = persisted)
      | none => true) && carriesPersisted persisted rest

/-- Whether every envelope handed to a transport along a trace carries the
host configuration `h`. -/
def carriesOnly (h : Host) (trace : List Event) : Bool :=
  trace.all (fun e =>
    match e.carriedHost with
    | some h' => decide (h' = h)
    | none => true)

/-- Whether an effect neither hands an envelope to a transport nor writes
the configuration to durable storage. -/
def Event.isSilent : Event → Bool
  | .mqPublish _ _ _ _ => false
  | .httpPut _ _ _ _ => false
  | .writeNetclientConfig _ _ => false
  | _ => true

/-- The configuration `c` with the endpoint of its host set to `ip`. -/
def withEndpoint (c : Config) (ip : IP) : Config :=
  { c with Host := { c.Host with EndpointIP := ip } }

/-- Whether an effect is a call of `daemon.Restart`. -/
def Event.isRestart : Event → Bool
  | .daemonRestart => true
  | _ => false

/-! ## Concrete inputs -/

/-- A pro server named `srv`. -/
def exServer : Server :=
  { Name := "srv", Server := "srv", API := "api.example.com", IsPro := true, TrafficKey := [7] }

/-- A non-static host with endpoint `203.0.113.5`. -/
def exHost : Host :=
  { ID := "h1", Name := "host", EndpointIP := some [203, 0, 113, 5],
    WgPublicListenPort := 51821, NatType := "public", Interfaces := [⟨"eth0", "10.0.0.2"⟩],
    DefaultInterface := "eth0", IsStatic := false, FirewallInUse := "nftables" }

/-- The configuration of `exHost`. -/
def exConfig : Config := { Host := exHost, TrafficKeyPrivate := [9] }

/-- A state whose in-memory configuration is the persisted one. -/
def exState : State := { Netclient := exConfig, Persisted := exConfig }

/-- A connected node of network `net` on `srv`. -/
def exNode : Node := { Server := "srv", Network := "net", ID := "n1", Connected := true }

/-- The controller's record of `exNode`, with one peer. -/
def exNodeGet : NodeGet := { Node := { ID := "n1", Network := "net" }, PeerIDs := ["p1"] }

/-- The counters collected for `exNode`. -/
def exCollected : Metrics :=
  { Network := "net", NodeName := "", NodeID := "", Connectivity := [("p1", 1)] }

/-- The counters of `exNode` as `publishMetrics` stamps them. -/
def exMetrics : Metrics :=
  { Network := "net", NodeName := "host", NodeID := "n1", Connectivity := [("p1", 1)] }

/-- A world in which the client is connected, every observable equals the
stored value and every external call succeeds. -/
def exWorld : World :=
  { CurrServer := "srv"
    Servers := [("srv", exServer)]
    Nodes := [exNode]
    Mqclient := some { IsConnectionOpen := true }
    HostPublicIP := some [203, 0, 113, 5]
    WgPublicListenPort := 51821
    HostNatType := "public"
    getInterfaces := .ok (some [⟨"eth0", "10.0.0.2"⟩])
    getDefaultInterface := .ok "eth0"
    GetInterfaceName := "netmaker"
    FirewallHasChanged := false
    DetectedFirewall := "nftables"
    writeError := fun _ => none
    Authenticate := fun _ _ => .ok "tok"
    getNode := fun _ _ => .ok exNodeGet
    putError := fun _ _ _ _ => none
    QueryEscape := fun s => s
    Collect := fun _ _ => .ok exCollected
    marshalError := fun _ => none
    ConvertBytesToKey := fun bs => .ok bs
    chunkError := fun _ _ _ => none
    token := fun _ _ _ _ => { WaitTimeout := true, Error := none }
    setupMQTTSingleton := fun _ => none
    restartError := none
    startError := none }

/-- The world `exWorld` with a broker that never acknowledges: the wait of
every publish times out. -/
def exWorldTimeout : World :=
  { exWorld with token := fun _ _ _ _ => { WaitTimeout := false, Error := none } }

/-- The world `exWorld` with the connection of the client closed and a new
NAT type observed. -/
def exWorldClosed : World :=
  { exWorld with Mqclient := some { IsConnectionOpen := false }, HostNatType := "symmetric" }

/-- The world `exWorld` with a new NAT type observed and a durable storage
that refuses every write. -/
def exWorldDiskFull : World :=
  { exWorld with HostNatType := "symmetric", writeError := fun _ => some "disk full" }

/-- The world `exWorld` with a new NAT type observed and a broker that never
acknowledges. -/
def exWorldDirtyTimeout : World :=
  { exWorld with HostNatType := "symmetric",
                 token := fun _ _ _ _ => { WaitTimeout := false, Error := none } }

/-- The host `exHost` before any endpoint is known. -/
def exHostNoEndpoint : Host := { exHost with EndpointIP := none }

/-- A state without endpoint, in memory and in durable storage. -/
def exStateNoEndpoint : State :=
  { Netclient := { Host := exHostNoEndpoint, TrafficKeyPrivate := [9] },
    Persisted := { Host := exHostNoEndpoint, TrafficKeyPrivate := [9] } }

/-- The world `exWorld` with `srv` selected but absent from the server
table. -/
def exWorldNoServer : World := { exWorld with Servers := [] }

/-- The world `exWorld` with the public IP `198.51.100.9` observed. -/
def exWorldMoved : World := { exWorld with HostPublicIP := some [198, 51, 100, 9] }

/-- The world `exWorld` with a default interface probe that fails. -/
def exWorldNoGateway : World :=
  { exWorld with getDefaultInterface := .error "default gateway not found" }

/-- The world `exWorld` with an interface enumeration that fails. -/
def exWorldNoInterfaces : World :=
  { exWorld with getInterfaces := .error "no interfaces" }

/-! ## Lemmas on the two transports -/

theorem publish_calls (w : World) (st : State) (serverName dest : String) (msg : Plain)
    (qos : Nat) :
    (publish w st serverName dest msg qos).1.filter Event.isPublishCall
      = [Event.publish serverName dest msg qos] := by
  simp only [publish]
  repeat' split
  all_goals simp [Event.isPublishCall]

theorem publish_no_fallback (w : World) (st : State) (serverName dest : String) (msg : Plain)
    (qos : Nat) :
    (publish w st serverName dest msg qos).1.filter Event.isFallbackCall = [] := by
  simp only [publish]
  repeat' split
  all_goals simp [Event.isFallbackCall]

theorem fallback_calls (w : World) (st : State) (action : HostMqAction)
    (node : Option ModelsNode) :
    (hostUpdateFallback w st action node).1.filter Event.isFallbackCall
      = [Event.hostUpdateFallback action node] := by
  simp only [hostUpdateFallback]
  repeat' split
  all_goals simp [Event.isFallbackCall]

theorem fallback_no_publisher (w : World) (st : State) (action : HostMqAction)
    (node : Option ModelsNode) :
    (hostUpdateFallback w st action node).1.filter Event.isTransportPublisher = [] := by
  simp only [hostUpdateFallback]
  repeat' split
  all_goals simp [Event.isTransportPublisher]

theorem fallback_no_publish_call (w : World) (st : State) (action : HostMqAction)
    (node : Option ModelsNode) :
    (hostUpdateFallback w st action node).1.filter Event.isPublishCall = [] := by
  simp only [hostUpdateFallback]
  repeat' split
  all_goals simp [Event.isPublishCall]

/-! ## The metrics cycle -/

/-- C1, as amended: on a non-fallback metrics cycle in which the server
exists and authentication, the controller fetch, collection and serialization
succeed, the trace is that of one call of `publish` on topic
`metrics/{server}/{nodeID}` at QoS 1 followed, only when that call returned
no error, by that of one call of `hostUpdateFallback(UpdateMetrics, fetched
node)`; so there is exactly one Transport Publisher invocation, and one
Fallback Transport invocation after a successful publish, none after a failed
one. -/
theorem publishMetrics_publish_then_fallback_on_success
    (w : World) (st : State) (node : Node) (server : Server) (token : String)
    (nodeGET : NodeGet) (collected : Metrics)
    (hserver : GetServer w node.Server = some server)
    (hauth : w.Authenticate server st.Netclient = .ok token)
    (hfetch : w.getNode
      ("https://" ++ server.API ++ "/api/nodes/" ++ node.Network ++ "/" ++ node.ID)
      ("Bearer " ++ token) = .ok nodeGET)
    (hcollect : w.Collect nodeGET.Node.Network nodeGET.PeerIDs = .ok collected)
    (hmarshal : w.marshalError
      (.metrics (stampMetrics collected node st.Netclient.Host.Name)) = none) :
    let data := Plain.metrics (stampMetrics collected node st.Netclient.Host.Name)
    let topic := "metrics/" ++ node.Server ++ "/" ++ node.ID
    let sent := publish w st node.Server topic data 1
    let fellBack := hostUpdateFallback w st .UpdateMetrics (some nodeGET.Node)
    let trace := publishMetrics w st node false
    trace = sent.1 ++ (if sent.2 = none then fellBack.1 else [])
    ∧ trace.filter Event.isPublishCall = [Event.publish node.Server topic data 1]
    ∧ trace.filter Event.isFallbackCall
        = (if sent.2 = none then [Event.hostUpdateFallback .UpdateMetrics (some nodeGET.Node)]
           else []) := by
  intro data topic sent fellBack trace
  have htrace : trace = sent.1 ++ (if sent.2 = none then fellBack.1 else []) := by
    show publishMetrics w st node false = _
    unfold publishMetrics
    simp only [hserver, hauth, hfetch, hcollect, hmarshal]
    cases h : sent.2 with
    | none =>
      have h' : (publish w st node.Server ("metrics/" ++ node.Server ++ "/" ++ node.ID)
        data 1).2 = none := h
      simp [h', sent, fellBack, topic, data]
    | some e =>
      have h' : (publish w st node.Server ("metrics/" ++ node.Server ++ "/" ++ node.ID)
        data 1).2 = some e := h
      simp [h', sent, topic, data]
  refine ⟨htrace, ?_, ?_⟩
  · rw [htrace, List.filter_append, publish_calls]
    split
    · simp [fellBack, fallback_no_publish_call]
    · simp
  · rw [htrace, List.filter_append, publish_no_fallback]
    split
    · simp [fellBack, fallback_calls]
    · simp

/-- Witness of C1 as amended: the cycle of `exNode` in `exWorld`, where the
publish succeeds. -/
theorem publishMetrics_publish_then_fallback_on_success_witness :
    (publishMetrics exWorld exState exNode false).filter Event.isPublishCall
      = [Event.publish "srv" "metrics/srv/n1" (.metrics exMetrics) 1]
    ∧ (publishMetrics exWorld exState exNode false).filter Event.isFallbackCall
      = [Event.hostUpdateFallback .UpdateMetrics (some exNodeGet.Node)] :=
  (publishMetrics_publish_then_fallback_on_success exWorld exState exNode exServer "tok"
    exNodeGet exCollected rfl rfl rfl rfl rfl).2

/-- C1, refuted as stated: in `exWorldTimeout` the server exists,
authentication, the controller fetch, collection and serialization succeed
and the cycle is a non-fallback one, the publish attempt is made once and
returns the error `connection timeout`, and `hostUpdateFallback` is not
invoked at all. -/
theorem publishMetrics_failed_publish_skips_fallback :
    GetServer exWorldTimeout exNode.Server = some exServer
    ∧ exWorldTimeout.Authenticate exServer exState.Netclient = .ok "tok"
    ∧ exWorldTimeout.getNode "https://api.example.com/api/nodes/net/n1" "Bearer tok"
        = .ok exNodeGet
    ∧ exWorldTimeout.Collect exNodeGet.Node.Network exNodeGet.PeerIDs = .ok exCollected
    ∧ exWorldTimeout.marshalError (.metrics exMetrics) = none
    ∧ (publish exWorldTimeout exState "srv" "metrics/srv/n1" (.metrics exMetrics) 1).2
        = some "connection timeout"
    ∧ ((publishMetrics exWorldTimeout exState exNode false).filter
        Event.isPublishCall).length = 1
    ∧ ((publishMetrics exWorldTimeout exState exNode false).filter
        Event.isFallbackCall).length = 0 := by
  refine ⟨rfl, rfl, rfl, rfl, rfl, ?_, ?_, ?_⟩ <;> decide

/-! ## Lemmas on the checks of the reconciler -/

theorem checkEndpoint_fields (w : World) (l : Locals) :
    (checkEndpoint w l).events = l.events
    ∧ (checkEndpoint w l).restartDaemon = l.restartDaemon
    ∧ (checkEndpoint w l).err = l.err := by
  unfold checkEndpoint
  split
  · split
    · exact ⟨rfl, rfl, rfl⟩
    · split <;> exact ⟨rfl, rfl, rfl⟩
  · exact ⟨rfl, rfl, rfl⟩

theorem checkListenPort_fields (w : World) (l : Locals) :
    (checkListenPort w l).events = l.events
    ∧ (checkListenPort w l).restartDaemon = l.restartDaemon
    ∧ (checkListenPort w l).err = l.err := by
  unfold checkListenPort
  split <;> exact ⟨rfl, rfl, rfl⟩

theorem checkNatType_fields (w : World) (l : Locals) :
    (checkNatType w l).events = l.events
    ∧ (checkNatType w l).restartDaemon = l.restartDaemon
    ∧ (checkNatType w l).err = l.err := by
  unfold checkNatType
  split <;> exact ⟨rfl, rfl, rfl⟩

theorem metricsFanOut_fields (w : World) (server : Server) (fallback : Bool) (l : Locals) :
    (metricsFanOut w server fallback l).events = l.events ++
        (if server.IsPro then
          List.map (fun node => Event.goPublishMetrics node fallback)
            (List.filter (fun node => node.Connected) w.Nodes)
         else [])
    ∧ (metricsFanOut w server fallback l).restartDaemon = l.restartDaemon
    ∧ (metricsFanOut w server fallback l).err = l.err
    ∧ (metricsFanOut w server fallback l).host = l.host
    ∧ (metricsFanOut w server fallback l).publishMsg = l.publishMsg := by
  unfold metricsFanOut
  split <;> simp

theorem checkInterfaces_fields (w : World) (l : Locals) :
    (checkInterfaces w l).events = l.events
    ∧ (checkInterfaces w l).restartDaemon = l.restartDaemon := by
  unfold checkInterfaces
  split
  · exact ⟨rfl, rfl⟩
  · exact ⟨rfl, rfl⟩
  · split <;> exact ⟨rfl, rfl⟩

theorem checkDefaultInterface_fields (w : World) (l : Locals) :
    (checkDefaultInterface w l).events = l.events
    ∧ (checkDefaultInterface w l).restartDaemon = l.restartDaemon
    ∧ (checkDefaultInterface w l).err
        = (match w.getDefaultInterface with
           | .error e => some e
           | .ok _ => none) := by
  unfold checkDefaultInterface
  split
  · exact ⟨rfl, rfl, rfl⟩
  · split <;> exact ⟨rfl, rfl, rfl⟩

theorem checkFirewall_fields (w : World) (l : Locals) :
    (checkFirewall w l).events
        = l.events ++ (if w.FirewallHasChanged then [Event.setFirewall] else [])
    ∧ (checkFirewall w l).restartDaemon = l.restartDaemon
    ∧ (checkFirewall w l).err = l.err := by
  unfold checkFirewall
  split <;> simp

/-- The effects of the checks: the metrics workers started for the connected
nodes of a pro server, then the firewall update. -/
theorem runChecks_events (w : World) (server : Server) (fallback : Bool) (host : Host) :
    (runChecks w server fallback host).events
      = (if server.IsPro then
          List.map (fun node => Event.goPublishMetrics node fallback)
            (List.filter (fun node => node.Connected) w.Nodes)
         else [])
        ++ (if w.FirewallHasChanged then [Event.setFirewall] else []) := by
  simp only [runChecks]
  rw [(checkFirewall_fields w _).1, (checkDefaultInterface_fields w _).1,
    (checkInterfaces_fields w _).1, (metricsFanOut_fields w server fallback _).1,
    (checkNatType_fields w _).1, (checkListenPort_fields w _).1,
    (checkEndpoint_fields w _).1]
  simp

/-- No check sets `restartDaemon`. -/
theorem runChecks_restartDaemon (w : World) (server : Server) (fallback : Bool) (host : Host) :
    (runChecks w server fallback host).restartDaemon = false := by
  simp only [runChecks]
  rw [(checkFirewall_fields w _).2.1, (checkDefaultInterface_fields w _).2.1,
    (checkInterfaces_fields w _).2, (metricsFanOut_fields w server fallback _).2.1,
    (checkNatType_fields w _).2.1, (checkListenPort_fields w _).2.1,
    (checkEndpoint_fields w _).2.1]

/-- The value of `err` after the checks is the error of
`getDefaultInterface()`, the last assignment to it. -/
theorem runChecks_err (w : World) (server : Server) (fallback : Bool) (host : Host) :
    (runChecks w server fallback host).err
      = (match w.getDefaultInterface with
         | .error e => some e
         | .ok _ => none) := by
  simp only [runChecks]
  rw [(checkFirewall_fields w _).2.2, (checkDefaultInterface_fields w _).2.2]

/-- The trace of the checks holds nothing that a predicate rejecting the
start of a metrics worker and the firewall update accepts. -/
theorem runChecks_events_filter (p : Event → Bool) (w : World) (server : Server)
    (fallback : Bool) (host : Host)
    (hgo : ∀ node fb, p (Event.goPublishMetrics node fb) = false)
    (hfw : p Event.setFirewall = false) :
    (runChecks w server fallback host).events.filter p = [] := by
  rw [runChecks_events, List.filter_eq_nil_iff]
  intro e he
  rw [List.mem_append] at he
  rcases he with he | he
  · split at he
    · rw [List.mem_map] at he
      obtain ⟨node, _, rfl⟩ := he
      simp [hgo]
    · simp at he
  · split at he
    · simp at he
      subst he
      simp [hfw]
    · simp at he

/-- The shape of `UpdateHostSettings` once the server is found. -/
theorem UpdateHostSettings_found (w : World) (st : State) (fallback : Bool) (server : Server)
    (hserver : GetServer w w.CurrServer = some server) :
    UpdateHostSettings w st fallback =
      (let l := runChecks w server fallback st.Netclient.Host
       let cfg : Config := { st.Netclient with Host := l.host }
       if l.publishMsg then
         match w.writeError cfg with
         | some e =>
           ({ st with Netclient := cfg }, l.events ++ [Event.writeNetclientConfig cfg false],
             some e)
         | none =>
           ({ Netclient := cfg, Persisted := cfg },
             l.events ++ [Event.writeNetclientConfig cfg true] ++
               (if fallback then
                 (hostUpdateFallback w { Netclient := cfg, Persisted := cfg } .UpdateHost none).1
                else
                 (PublishHostUpdate w { Netclient := cfg, Persisted := cfg } w.CurrServer
                   .UpdateHost).1),
             l.err)
       else ({ st with Netclient := cfg }, l.events, l.err)) := by
  simp only [UpdateHostSettings, hserver, restartIfNeeded, runChecks_restartDaemon,
    WriteNetclientConfig]
  split
  · cases h : w.writeError { st.Netclient with
      Host := (runChecks w server fallback st.Netclient.Host).host } <;> simp
  · simp

theorem publishMetrics_fallback_no_publisher (w : World) (s : State) (node : Node) :
    (publishMetrics w s node true).filter Event.isTransportPublisher = [] := by
  simp only [publishMetrics]
  repeat' split
  all_goals first
    | exact absurd trivial ‹¬True›
    | simp [fallback_no_publisher]

theorem UpdateHostSettings_fallback_no_publisher (w : World) (st : State) :
    (UpdateHostSettings w st true).2.1.filter Event.isTransportPublisher = [] := by
  cases hserver : GetServer w w.CurrServer with
  | none => simp [UpdateHostSettings, hserver]
  | some server =>
    have hchecks := runChecks_events_filter Event.isTransportPublisher w server true
      st.Netclient.Host (fun _ _ => rfl) rfl
    rw [UpdateHostSettings_found w st true server hserver]
    simp only []
    split
    · split
      · simp [List.filter_append, hchecks, Event.isTransportPublisher]
      · simp [List.filter_append, hchecks, Event.isTransportPublisher, fallback_no_publisher]
    · simpa using hchecks

theorem UpdateHostSettings_workers (w : World) (st : State) (fallback : Bool) (node : Node)
    (fb : Bool)
    (hmem : Event.goPublishMetrics node fb ∈ (UpdateHostSettings w st fallback).2.1) :
    fb = fallback ∧ node ∈ w.Nodes ∧ node.Connected = true := by
  cases hserver : GetServer w w.CurrServer with
  | none => simp [UpdateHostSettings, hserver] at hmem
  | some server =>
    have hchecks : Event.goPublishMetrics node fb
        ∈ (runChecks w server fallback st.Netclient.Host).events →
        fb = fallback ∧ node ∈ w.Nodes ∧ node.Connected = true := by
      rw [runChecks_events]
      intro h
      rw [List.mem_append] at h
      rcases h with h | h
      · split at h
        · rw [List.mem_map] at h
          obtain ⟨n, hn, heq⟩ := h
          rw [List.mem_filter] at hn
          injection heq with h1 h2
          subst h1
          subst h2
          exact ⟨rfl, hn.1, by simpa using hn.2⟩
        · simp at h
      · split at h <;> simp at h
    have hfb : ∀ a n, Event.goPublishMetrics node fb
        ∉ (hostUpdateFallback w
            { Netclient := { st.Netclient with
                Host := (runChecks w server fallback st.Netclient.Host).host },
              Persisted := { st.Netclient with
                Host := (runChecks w server fallback st.Netclient.Host).host } } a n).1 := by
      intro a n
      simp only [hostUpdateFallback]
      repeat' split
      all_goals simp
    have hpub : ∀ a, Event.goPublishMetrics node fb
        ∉ (PublishHostUpdate w
            { Netclient := { st.Netclient with
                Host := (runChecks w server fallback st.Netclient.Host).host },
              Persisted := { st.Netclient with
                Host := (runChecks w server fallback st.Netclient.Host).host } }
            w.CurrServer a).1 := by
      intro a
      simp only [PublishHostUpdate, publish]
      repeat' split
      all_goals simp
    rw [UpdateHostSettings_found w st fallback server hserver] at hmem
    simp only [] at hmem
    split at hmem
    · split at hmem
      · simp only [List.mem_append, List.mem_singleton] at hmem
        rcases hmem with h | h
        · exact hchecks h
        · cases h
      · simp only [List.mem_append, List.mem_singleton] at hmem
        rcases hmem with (h | h) | h
        · exact hchecks h
        · cases h
        · split at h
          · exact absurd h (hfb _ _)
          · exact absurd h (hpub _)
    · exact hchecks hmem

/-! ## The scheduler tick -/

/-- C2: on a tick with a server selected and a pub/sub client that is nil or
reports its connection closed, the tick is `checkinFallback`; its trace holds
no invocation of the Transport Publisher (no entry into `PublishHostUpdate`
or `publish`, no `Mqclient.Publish`); every metrics worker it starts is
started with `fallback = true`, and such a worker, whatever state it
observes, does not invoke the Transport Publisher either. -/
theorem CheckinTick_closed_never_publishes (w : World) (st : State)
    (hselected : w.CurrServer ≠ "")
    (hclosed : ∀ client, w.Mqclient = some client → client.IsConnectionOpen = false) :
    CheckinTick w st = checkinFallback w st
    ∧ (CheckinTick w st).2.filter Event.isTransportPublisher = []
    ∧ (∀ node fb, Event.goPublishMetrics node fb ∈ (CheckinTick w st).2 → fb = true)
    ∧ (∀ node fb (s : State), Event.goPublishMetrics node fb ∈ (CheckinTick w st).2 →
        (publishMetrics w s node fb).filter Event.isTransportPublisher = []) := by
  have htick : CheckinTick w st = checkinFallback w st := by
    unfold CheckinTick
    rw [if_neg hselected]
    cases hc : w.Mqclient with
    | none => rfl
    | some client => simp [hclosed client hc]
  have hworkers : ∀ node fb, Event.goPublishMetrics node fb ∈ (checkinFallback w st).2 →
      fb = true := by
    intro node fb hmem
    unfold checkinFallback at hmem
    split at hmem
    · next st1 events e heq =>
      have h := UpdateHostSettings_workers w st true node fb
      rw [heq] at h
      exact (h hmem).1
    · next st1 events heq =>
      have h := UpdateHostSettings_workers w st true node fb
      rw [heq] at h
      simp only [List.mem_append] at hmem
      rcases hmem with hmem | hmem
      · exact (h hmem).1
      · exfalso
        revert hmem
        simp only [hostUpdateFallback]
        repeat' split
        all_goals simp
  rw [htick]
  refine ⟨rfl, ?_, hworkers, ?_⟩
  · unfold checkinFallback
    have h := UpdateHostSettings_fallback_no_publisher w st
    split
    · next st1 events e heq =>
      rw [heq] at h
      exact h
    · next st1 events heq =>
      rw [heq] at h
      simp only [] at h
      simp [List.filter_append, h, fallback_no_publisher]
  · intro node fb s hmem
    rw [hworkers node fb hmem]
    exact publishMetrics_fallback_no_publisher w s node

/-- Witness of C2: the tick of `exWorldClosed`, which persists the new NAT
type, sends `UpdateHost` and `CheckIn` over HTTPS and starts one worker. -/
theorem CheckinTick_closed_never_publishes_witness :
    (CheckinTick exWorldClosed exState).2.filter Event.isTransportPublisher = []
    ∧ ((CheckinTick exWorldClosed exState).2.filter Event.isFallbackCall
        = [Event.hostUpdateFallback .UpdateHost none, Event.hostUpdateFallback .CheckIn none]) :=
  ⟨(CheckinTick_closed_never_publishes exWorldClosed exState (by decide)
      (by intro client h; cases h; rfl)).2.1, by decide⟩

/-! ## The daemon restart -/

/-- C10: for every world, every state and both values of `fallback`, the
flag `restartDaemon` is false after the checks, whatever server is found, and
the trace of `UpdateHostSettings` holds no call of `daemon.Restart`. -/
theorem UpdateHostSettings_never_restarts (w : World) (st : State) (fallback : Bool) :
    (∀ server, (runChecks w server fallback st.Netclient.Host).restartDaemon = false)
    ∧ (UpdateHostSettings w st fallback).2.1.filter Event.isRestart = [] := by
  refine ⟨fun server => runChecks_restartDaemon w server fallback _, ?_⟩
  cases hserver : GetServer w w.CurrServer with
  | none => simp [UpdateHostSettings, hserver]
  | some server =>
    have hchecks := runChecks_events_filter Event.isRestart w server fallback
      st.Netclient.Host (fun _ _ => rfl) rfl
    have hfb : ∀ s a n, (hostUpdateFallback w s a n).1.filter Event.isRestart = [] := by
      intro s a n
      simp only [hostUpdateFallback]
      repeat' split
      all_goals simp [Event.isRestart]
    have hpub : ∀ s srv a, (PublishHostUpdate w s srv a).1.filter Event.isRestart = [] := by
      intro s srv a
      simp only [PublishHostUpdate, publish]
      repeat' split
      all_goals simp [Event.isRestart]
    rw [UpdateHostSettings_found w st fallback server hserver]
    simp only []
    split
    · split
      · simp [List.filter_append, hchecks, Event.isRestart]
      · split <;> simp [List.filter_append, hchecks, Event.isRestart, hfb, hpub]
    · simpa using hchecks

/-! ## Unchanged observables -/

theorem ipEqual_self (ip : IP) : ipEqual ip ip = true := by
  simp [ipEqual]

theorem checkEndpoint_same (w : World) (l : Locals)
    (hip : w.HostPublicIP = l.host.EndpointIP) : checkEndpoint w l = l := by
  unfold checkEndpoint
  split
  · split
    · next hnil =>
      rw [hip, hnil]
      cases l with
      | mk host err publishMsg restartDaemon events =>
        cases host
        simp_all
    · rw [if_neg]
      rw [hip, ipEqual_self]
      simp
  · rfl

theorem checkEndpoint_others (w : World) (l : Locals) :
    (checkEndpoint w l).host = { l.host with EndpointIP := (checkEndpoint w l).host.EndpointIP }
    := by
  unfold checkEndpoint
  split
  · split
    · rfl
    · split <;> rfl
  · rfl

theorem checkListenPort_same (w : World) (l : Locals)
    (hport : w.WgPublicListenPort = l.host.WgPublicListenPort) : checkListenPort w l = l := by
  unfold checkListenPort
  rw [if_neg]
  intro h
  exact h.2 hport.symm

theorem checkNatType_same (w : World) (l : Locals)
    (hnat : w.HostNatType = l.host.NatType) : checkNatType w l = l := by
  unfold checkNatType
  rw [if_neg]
  intro h
  exact h.2 hnat.symm

theorem checkInterfaces_same (w : World) (l : Locals)
    (hifs : ∀ ip, w.getInterfaces = .ok (some ip) → ip.length = l.host.Interfaces.length) :
    (checkInterfaces w l).host = l.host
    ∧ (checkInterfaces w l).publishMsg = l.publishMsg := by
  unfold checkInterfaces
  split
  · exact ⟨rfl, rfl⟩
  · exact ⟨rfl, rfl⟩
  · next ip heq =>
    rw [if_neg (not_not.mpr (hifs ip heq))]
    exact ⟨rfl, rfl⟩

theorem checkDefaultInterface_same (w : World) (l : Locals)
    (hdef : ∀ d, w.getDefaultInterface = .ok d → d = l.host.DefaultInterface) :
    (checkDefaultInterface w l).host = l.host
    ∧ (checkDefaultInterface w l).publishMsg = l.publishMsg := by
  unfold checkDefaultInterface
  split
  · exact ⟨rfl, rfl⟩
  · next d heq =>
    rw [if_neg (fun h => h.1 (hdef d heq))]
    exact ⟨rfl, rfl⟩

theorem checkFirewall_same (w : World) (l : Locals) (hfw : w.FirewallHasChanged = false) :
    checkFirewall w l = l := by
  unfold checkFirewall
  simp [hfw]

/-- When the probed listen port, NAT type, interface count, default interface
and firewall equal the stored ones, the host configuration and the dirty flag
after all checks are those after the endpoint check. -/
theorem runChecks_others_same (w : World) (server : Server) (fallback : Bool) (host : Host)
    (hport : w.WgPublicListenPort = host.WgPublicListenPort)
    (hnat : w.HostNatType = host.NatType)
    (hifs : ∀ ip, w.getInterfaces = .ok (some ip) → ip.length = host.Interfaces.length)
    (hdef : ∀ d, w.getDefaultInterface = .ok d → d = host.DefaultInterface)
    (hfw : w.FirewallHasChanged = false) :
    (runChecks w server fallback host).host
      = (checkEndpoint w ⟨host, none, false, false, []⟩).host
    ∧ (runChecks w server fallback host).publishMsg
      = (checkEndpoint w ⟨host, none, false, false, []⟩).publishMsg := by
  have hothers := checkEndpoint_others w ⟨host, none, false, false, []⟩
  generalize hl1 : checkEndpoint w ⟨host, none, false, false, []⟩ = l1 at hothers
  have hport1 : w.WgPublicListenPort = l1.host.WgPublicListenPort := by rw [hothers]; exact hport
  have hnat1 : w.HostNatType = l1.host.NatType := by rw [hothers]; exact hnat
  have hifs1 : ∀ ip, w.getInterfaces = .ok (some ip) →
      ip.length = l1.host.Interfaces.length := by rw [hothers]; exact hifs
  have hdef1 : ∀ d, w.getDefaultInterface = .ok d → d = l1.host.DefaultInterface := by
    rw [hothers]; exact hdef
  simp only [runChecks, hl1]
  rw [checkFirewall_same w _ hfw, checkListenPort_same w l1 hport1,
    checkNatType_same w l1 hnat1]
  have hfan := metricsFanOut_fields w server fallback l1
  have hi := checkInterfaces_same w (metricsFanOut w server fallback l1)
    (by rw [hfan.2.2.2.1]; exact hifs1)
  have hd := checkDefaultInterface_same w
    (checkInterfaces w (metricsFanOut w server fallback l1))
    (by rw [hi.1, hfan.2.2.2.1]; exact hdef1)
  exact ⟨by rw [hd.1, hi.1, hfan.2.2.2.1], by rw [hd.2, hi.2, hfan.2.2.2.2]⟩

/-- The effects of `publish`: its entry, then at most one call of
`Mqclient.Publish`, on the given topic at the given QoS, not retained, with
the output of `Chunk` for the message as payload. -/
theorem publish_events (w : World) (st : State) (serverName dest : String) (msg : Plain)
    (qos : Nat) :
    (publish w st serverName dest msg qos).1 = [Event.publish serverName dest msg qos]
    ∨ ∃ pub priv, (publish w st serverName dest msg qos).1
        = [Event.publish serverName dest msg qos,
           Event.mqPublish dest qos false (.chunked msg pub priv)] := by
  cases hs : GetServer w serverName with
  | none => exact Or.inl (by simp [publish, hs])
  | some server =>
    cases hk : w.ConvertBytesToKey server.TrafficKey with
    | error e => exact Or.inl (by simp [publish, hs, hk])
    | ok pub =>
      cases hp : w.ConvertBytesToKey st.Netclient.TrafficKeyPrivate with
      | error e => exact Or.inl (by simp [publish, hs, hk, hp])
      | ok priv =>
        cases hc : w.chunkError msg pub priv with
        | some e => exact Or.inl (by simp [publish, Chunk, hs, hk, hp, hc])
        | none =>
          refine Or.inr ⟨pub, priv, ?_⟩
          simp only [publish, Chunk, hs, hk, hp, hc]
          split <;> rfl

/-- The effects of `hostUpdateFallback`: its entry, then at most one PUT of
an envelope with the given action and the in-memory host configuration. -/
theorem hostUpdateFallback_events (w : World) (st : State) (action : HostMqAction)
    (node : Option ModelsNode) :
    (hostUpdateFallback w st action node).1 = [Event.hostUpdateFallback action node]
    ∨ ∃ url route n authorization, (hostUpdateFallback w st action node).1
        = [Event.hostUpdateFallback action node,
           Event.httpPut url route ⟨action, st.Netclient.Host, n, {}⟩ authorization] := by
  cases hs : GetServer w w.CurrServer with
  | none => exact Or.inl (by simp [hostUpdateFallback, hs])
  | some server =>
    cases ha : w.Authenticate server st.Netclient with
    | error e => exact Or.inl (by simp [hostUpdateFallback, hs, ha])
    | ok token =>
      refine Or.inr ⟨"https://" ++ server.API,
        "/api/v1/fallback/host/" ++ w.QueryEscape st.Netclient.Host.ID,
        (match node with
          | none => {}
          | some n => n),
        "Bearer " ++ token, ?_⟩
      simp only [hostUpdateFallback, hs, ha]

theorem publishMetrics_sends_no_UpdateHost (w : World) (s : State) (node : Node)
    (fallback : Bool) :
    (publishMetrics w s node fallback).filter (Event.sendsAction .UpdateHost) = [] := by
  have hfb : ∀ n, (hostUpdateFallback w s .UpdateMetrics n).1.filter
      (Event.sendsAction .UpdateHost) = [] := by
    intro n
    rcases hostUpdateFallback_events w s .UpdateMetrics n with h | ⟨_, _, _, _, h⟩ <;>
      simp [h, Event.sendsAction]
  have hpub : ∀ srv dest m, (publish w s srv dest (.metrics m) 1).1.filter
      (Event.sendsAction .UpdateHost) = [] := by
    intro srv dest m
    rcases publish_events w s srv dest (.metrics m) 1 with h | ⟨_, _, h⟩ <;>
      simp [h, Event.sendsAction]
  simp only [publishMetrics]
  repeat' split
  all_goals simp [hfb, hpub, List.filter_append]

/-! ## Idempotence of the reconciler -/

/-- C4: when the server config exists and every observable equals the stored
value (observed endpoint IP, probed listen port, probed NAT type, enumerated
interface count, probed default interface; a failed probe changes nothing
either; the firewall probe reports no change), `UpdateHostSettings` sets no
dirty flag, leaves the state (the host configuration and its stored copy)
unchanged, does not call `config.WriteNetclientConfig`, and its trace holds
no `UpdateHost` message and no invocation of either transport; the metrics
workers it may start send no `UpdateHost` message either. -/
theorem UpdateHostSettings_idempotent (w : World) (st : State) (fallback : Bool)
    (server : Server)
    (hserver : GetServer w w.CurrServer = some server)
    (hip : w.HostPublicIP = st.Netclient.Host.EndpointIP)
    (hport : w.WgPublicListenPort = st.Netclient.Host.WgPublicListenPort)
    (hnat : w.HostNatType = st.Netclient.Host.NatType)
    (hifs : ∀ ip, w.getInterfaces = .ok (some ip) →
      ip.length = st.Netclient.Host.Interfaces.length)
    (hdef : ∀ d, w.getDefaultInterface = .ok d → d = st.Netclient.Host.DefaultInterface)
    (hfw : w.FirewallHasChanged = false) :
    (runChecks w server fallback st.Netclient.Host).publishMsg = false
    ∧ (UpdateHostSettings w st fallback).1 = st
    ∧ (UpdateHostSettings w st fallback).2.1.filter Event.isWrite = []
    ∧ (UpdateHostSettings w st fallback).2.1.filter (Event.sendsAction .UpdateHost) = []
    ∧ (UpdateHostSettings w st fallback).2.1.filter Event.isTransportPublisher = []
    ∧ (UpdateHostSettings w st fallback).2.1.filter Event.isFallbackCall = []
    ∧ (∀ s node fb, (publishMetrics w s node fb).filter (Event.sendsAction .UpdateHost) = [])
    := by
  have hsame := runChecks_others_same w server fallback st.Netclient.Host hport hnat hifs hdef
    hfw
  rw [checkEndpoint_same w ⟨st.Netclient.Host, none, false, false, []⟩ hip] at hsame
  have hclean : (runChecks w server fallback st.Netclient.Host).publishMsg = false := hsame.2
  have hhost : (runChecks w server fallback st.Netclient.Host).host = st.Netclient.Host :=
    hsame.1
  have hrun : UpdateHostSettings w st fallback
      = (st, (runChecks w server fallback st.Netclient.Host).events,
          (runChecks w server fallback st.Netclient.Host).err) := by
    rw [UpdateHostSettings_found w st fallback server hserver]
    simp only [hclean, hhost]
    rfl
  rw [hrun]
  exact ⟨hclean, rfl,
    runChecks_events_filter _ w server fallback _ (fun _ _ => rfl) rfl,
    runChecks_events_filter _ w server fallback _ (fun _ _ => rfl) rfl,
    runChecks_events_filter _ w server fallback _ (fun _ _ => rfl) rfl,
    runChecks_events_filter _ w server fallback _ (fun _ _ => rfl) rfl,
    fun s node fb => publishMetrics_sends_no_UpdateHost w s node fb⟩

/-- Witness of C4: `exWorld` observes exactly what `exState` stores. -/
theorem UpdateHostSettings_idempotent_witness :
    (UpdateHostSettings exWorld exState false).1 = exState
    ∧ (UpdateHostSettings exWorld exState false).2.1.filter Event.isWrite = [] :=
  ⟨(UpdateHostSettings_idempotent exWorld exState false exServer rfl rfl rfl rfl
      (by intro ip h; cases h; rfl) (by intro d h; cases h; rfl) rfl).2.1,
   (UpdateHostSettings_idempotent exWorld exState false exServer rfl rfl rfl rfl
      (by intro ip h; cases h; rfl) (by intro d h; cases h; rfl) rfl).2.2.1⟩

/-- The effects of `PublishHostUpdate`: its entry, then at most one call of
`publish` on the host topic at QoS 1 with the envelope of the given action and
the in-memory host configuration. -/
theorem PublishHostUpdate_events (w : World) (st : State) (server : String)
    (action : HostMqAction) :
    (PublishHostUpdate w st server action).1 = [Event.publishHostUpdate server action]
    ∨ (PublishHostUpdate w st server action).1
        = [Event.publishHostUpdate server action,
           Event.publish server ("host/serverupdate/" ++ server ++ "/" ++ st.Netclient.Host.ID)
             (.hostUpdate ⟨action, st.Netclient.Host, {}, {}⟩) 1]
    ∨ ∃ pub priv, (PublishHostUpdate w st server action).1
        = [Event.publishHostUpdate server action,
           Event.publish server ("host/serverupdate/" ++ server ++ "/" ++ st.Netclient.Host.ID)
             (.hostUpdate ⟨action, st.Netclient.Host, {}, {}⟩) 1,
           Event.mqPublish ("host/serverupdate/" ++ server ++ "/" ++ st.Netclient.Host.ID) 1
             false (.chunked (.hostUpdate ⟨action, st.Netclient.Host, {}, {}⟩) pub priv)] := by
  cases hm : w.marshalError (.hostUpdate ⟨action, st.Netclient.Host, {}, {}⟩) with
  | some e => exact Or.inl (by simp [PublishHostUpdate, hm])
  | none =>
    rcases publish_events w st server
      ("host/serverupdate/" ++ server ++ "/" ++ st.Netclient.Host.ID)
      (.hostUpdate ⟨action, st.Netclient.Host, {}, {}⟩) 1 with h | ⟨pub, priv, h⟩
    · exact Or.inr (Or.inl (by simp [PublishHostUpdate, hm, h]))
    · exact Or.inr (Or.inr ⟨pub, priv, by simp [PublishHostUpdate, hm, h]⟩)

/-! ## Persistence failure -/

/-- C5: when the checks of `UpdateHostSettings` leave the host dirty, then
(1) if `config.WriteNetclientConfig` fails with `e`, `UpdateHostSettings`
returns exactly `e`, the stored copy is left as it was, and the trace holds no
`UpdateHost` message and no invocation of the Transport Publisher or of the
Fallback Transport, for both values of `fallback`; (2) if it succeeds, the
value returned is the error of the default interface probe (nil when the
probe succeeded), whatever the outcome of the publish: it is the same for
every behaviour of the broker token and of the HTTPS PUT. -/
theorem UpdateHostSettings_persistence_error (w : World) (st : State) (fallback : Bool)
    (server : Server)
    (hserver : GetServer w w.CurrServer = some server)
    (hdirty : (runChecks w server fallback st.Netclient.Host).publishMsg = true) :
    (∀ e, w.writeError
          { st.Netclient with Host := (runChecks w server fallback st.Netclient.Host).host }
          = some e →
        (UpdateHostSettings w st fallback).2.2 = some e
        ∧ (UpdateHostSettings w st fallback).1.Persisted = st.Persisted
        ∧ (UpdateHostSettings w st fallback).2.1.filter (Event.sendsAction .UpdateHost) = []
        ∧ (UpdateHostSettings w st fallback).2.1.filter Event.isTransportPublisher = []
        ∧ (UpdateHostSettings w st fallback).2.1.filter Event.isFallbackCall = [])
    ∧ (w.writeError
          { st.Netclient with Host := (runChecks w server fallback st.Netclient.Host).host }
          = none →
        (UpdateHostSettings w st fallback).2.2
          = (match w.getDefaultInterface with
             | .error e => some e
             | .ok _ => none)
        ∧ ∀ token putError,
            (UpdateHostSettings { w with token := token, putError := putError } st
              fallback).2.2 = (UpdateHostSettings w st fallback).2.2) := by
  have hfound := UpdateHostSettings_found w st fallback server hserver
  simp only [hdirty, if_true] at hfound
  constructor
  · intro e he
    rw [hfound]
    simp only [he]
    refine ⟨trivial, trivial, ?_, ?_, ?_⟩
    · simp [List.filter_append, Event.sendsAction,
        runChecks_events_filter (Event.sendsAction .UpdateHost) w server fallback
          st.Netclient.Host (fun _ _ => rfl) rfl]
    · simp [List.filter_append, Event.isTransportPublisher,
        runChecks_events_filter Event.isTransportPublisher w server fallback
          st.Netclient.Host (fun _ _ => rfl) rfl]
    · simp [List.filter_append, Event.isFallbackCall,
        runChecks_events_filter Event.isFallbackCall w server fallback
          st.Netclient.Host (fun _ _ => rfl) rfl]
  · intro hok
    have hret : (UpdateHostSettings w st fallback).2.2
        = (match w.getDefaultInterface with
           | .error e => some e
           | .ok _ => none) := by
      rw [hfound]
      simp only [hok]
      exact runChecks_err w server fallback st.Netclient.Host
    refine ⟨hret, ?_⟩
    intro token putError
    have hfound' := UpdateHostSettings_found { w with token := token, putError := putError }
      st fallback server hserver
    have hchecks : runChecks { w with token := token, putError := putError } server fallback
        st.Netclient.Host = runChecks w server fallback st.Netclient.Host := rfl
    rw [hchecks] at hfound'
    simp only [hdirty, if_true, hok] at hfound'
    rw [hret, hfound']
    exact runChecks_err w server fallback st.Netclient.Host

/-- Witness of C5: in `exWorldDiskFull` the host is dirty and the write
fails; in `exWorldDirtyTimeout` the host is dirty, the write succeeds, the
publish of `UpdateHost` fails with `connection timeout` and nil is returned. -/
theorem UpdateHostSettings_persistence_error_witness :
    (UpdateHostSettings exWorldDiskFull exState false).2.2 = some "disk full"
    ∧ (UpdateHostSettings exWorldDiskFull exState false).2.1.filter
        (Event.sendsAction .UpdateHost) = []
    ∧ (PublishHostUpdate exWorldDirtyTimeout
        (UpdateHostSettings exWorldDirtyTimeout exState false).1 "srv" .UpdateHost).2
        = some "connection timeout"
    ∧ (UpdateHostSettings exWorldDirtyTimeout exState false).2.2 = none :=
  ⟨((UpdateHostSettings_persistence_error exWorldDiskFull exState false exServer rfl
      (by decide)).1 "disk full" rfl).1,
   ((UpdateHostSettings_persistence_error exWorldDiskFull exState false exServer rfl
      (by decide)).1 "disk full" rfl).2.2.1,
   by decide,
   ((UpdateHostSettings_persistence_error exWorldDirtyTimeout exState false exServer rfl
      (by decide)).2 rfl).1⟩

/-! ## Endpoint adoption -/

theorem checkEndpoint_bootstrap (w : World) (l : Locals)
    (hstatic : l.host.IsStatic = false) (hnil : l.host.EndpointIP = none) :
    checkEndpoint w l = { l with host := { l.host with EndpointIP := w.HostPublicIP } } := by
  unfold checkEndpoint
  simp [hstatic, hnil]

theorem checkEndpoint_moved (w : World) (l : Locals)
    (hstatic : l.host.IsStatic = false) (hset : l.host.EndpointIP ≠ none)
    (hobserved : w.HostPublicIP ≠ none)
    (hspecified : ipIsUnspecified w.HostPublicIP = false)
    (hdiffers : ipEqual l.host.EndpointIP w.HostPublicIP = false) :
    checkEndpoint w l
      = { l with host := { l.host with EndpointIP := w.HostPublicIP }, publishMsg := true }
    := by
  unfold checkEndpoint
  simp [hstatic, hset, hobserved, hspecified, hdiffers]

/-- C3, as amended: for a non-static host, when the server config exists,
the other observables equal the stored values and persistence succeeds,
(i) if the stored `EndpointIP` is unset, then whatever public IP is observed
it becomes the stored `EndpointIP`, the dirty flag is not set, the copy in
durable storage is untouched, and the trace holds no call of
`config.WriteNetclientConfig` and no `UpdateHost` message; (ii) if the stored
`EndpointIP` is set and the observed public IP is non-nil, not unspecified
and not `Equal` to it, then the observed IP becomes the stored `EndpointIP`,
the dirty flag is set, and the trace holds exactly one call of
`config.WriteNetclientConfig` followed by exactly one `UpdateHost` send
(`hostUpdateFallback` in fallback mode, `PublishHostUpdate` otherwise). -/
theorem UpdateHostSettings_endpoint_adoption (w : World) (st : State) (fallback : Bool)
    (server : Server)
    (hserver : GetServer w w.CurrServer = some server)
    (hstatic : st.Netclient.Host.IsStatic = false)
    (hport : w.WgPublicListenPort = st.Netclient.Host.WgPublicListenPort)
    (hnat : w.HostNatType = st.Netclient.Host.NatType)
    (hifs : ∀ ip, w.getInterfaces = .ok (some ip) →
      ip.length = st.Netclient.Host.Interfaces.length)
    (hdef : ∀ d, w.getDefaultInterface = .ok d → d = st.Netclient.Host.DefaultInterface)
    (hfw : w.FirewallHasChanged = false)
    (hwrite : w.writeError (withEndpoint st.Netclient w.HostPublicIP) = none) :
    (st.Netclient.Host.EndpointIP = none →
        (UpdateHostSettings w st fallback).1
          = { st with Netclient := withEndpoint st.Netclient w.HostPublicIP }
        ∧ (runChecks w server fallback st.Netclient.Host).publishMsg = false
        ∧ (UpdateHostSettings w st fallback).2.1.filter Event.isWrite = []
        ∧ (UpdateHostSettings w st fallback).2.1.filter Event.isUpdateHostCall = []
        ∧ (UpdateHostSettings w st fallback).2.1.filter (Event.sendsAction .UpdateHost) = [])
    ∧ (st.Netclient.Host.EndpointIP ≠ none → w.HostPublicIP ≠ none →
        ipIsUnspecified w.HostPublicIP = false →
        ipEqual st.Netclient.Host.EndpointIP w.HostPublicIP = false →
        (UpdateHostSettings w st fallback).1
          = { Netclient := withEndpoint st.Netclient w.HostPublicIP,
              Persisted := withEndpoint st.Netclient w.HostPublicIP }
        ∧ (runChecks w server fallback st.Netclient.Host).publishMsg = true
        ∧ (UpdateHostSettings w st fallback).2.1.filter
            (fun e => e.isWrite || e.isUpdateHostCall)
          = [Event.writeNetclientConfig (withEndpoint st.Netclient w.HostPublicIP) true,
             if fallback then Event.hostUpdateFallback .UpdateHost none
             else Event.publishHostUpdate w.CurrServer .UpdateHost]) := by
  have hsame := runChecks_others_same w server fallback st.Netclient.Host hport hnat hifs hdef
    hfw
  have hfound := UpdateHostSettings_found w st fallback server hserver
  constructor
  · intro hnil
    rw [checkEndpoint_bootstrap w ⟨st.Netclient.Host, none, false, false, []⟩ hstatic hnil]
      at hsame
    have hclean : (runChecks w server fallback st.Netclient.Host).publishMsg = false := hsame.2
    simp only [hclean, hsame.1] at hfound
    rw [hfound]
    exact ⟨rfl, hclean,
      runChecks_events_filter _ w server fallback _ (fun _ _ => rfl) rfl,
      runChecks_events_filter _ w server fallback _ (fun _ _ => rfl) rfl,
      runChecks_events_filter _ w server fallback _ (fun _ _ => rfl) rfl⟩
  · intro hset hobserved hspecified hdiffers
    rw [checkEndpoint_moved w ⟨st.Netclient.Host, none, false, false, []⟩ hstatic hset
      hobserved hspecified hdiffers] at hsame
    have hdirty : (runChecks w server fallback st.Netclient.Host).publishMsg = true := hsame.2
    have hcfg : ({ st.Netclient with
        Host := (runChecks w server fallback st.Netclient.Host).host } : Config)
        = withEndpoint st.Netclient w.HostPublicIP := by
      rw [hsame.1]
      rfl
    simp only [hdirty, if_true, hcfg, hwrite] at hfound
    rw [hfound]
    refine ⟨rfl, hdirty, ?_⟩
    have hchecks := runChecks_events_filter (fun e => e.isWrite || e.isUpdateHostCall) w server
      fallback st.Netclient.Host (fun _ _ => rfl) rfl
    simp only [List.filter_append, hchecks, List.nil_append]
    cases fallback with
    | true =>
      rcases hostUpdateFallback_events w
        ⟨withEndpoint st.Netclient w.HostPublicIP, withEndpoint st.Netclient w.HostPublicIP⟩
        .UpdateHost none with h | ⟨_, _, _, _, h⟩ <;>
        simp [h, Event.isWrite, Event.isUpdateHostCall]
    | false =>
      rcases PublishHostUpdate_events w
        ⟨withEndpoint st.Netclient w.HostPublicIP, withEndpoint st.Netclient w.HostPublicIP⟩
        w.CurrServer .UpdateHost with h | h | ⟨_, _, h⟩ <;>
        simp [h, Event.isWrite, Event.isUpdateHostCall]

/-- Witness of C3 as amended: the bootstrap adoption of `203.0.113.5` in
`exWorld`, and the move from `203.0.113.5` to `198.51.100.9` in
`exWorldMoved`. -/
theorem UpdateHostSettings_endpoint_adoption_witness :
    (UpdateHostSettings exWorld exStateNoEndpoint false).1.Netclient.Host.EndpointIP
      = some [203, 0, 113, 5]
    ∧ (UpdateHostSettings exWorld exStateNoEndpoint false).2.1.filter Event.isWrite = []
    ∧ (UpdateHostSettings exWorldMoved exState false).2.1.filter
        (fun e => e.isWrite || e.isUpdateHostCall)
      = [Event.writeNetclientConfig (withEndpoint exConfig (some [198, 51, 100, 9])) true,
         Event.publishHostUpdate "srv" .UpdateHost] :=
  ⟨congrArg (fun s => s.Netclient.Host.EndpointIP)
      ((UpdateHostSettings_endpoint_adoption exWorld exStateNoEndpoint false exServer rfl rfl
        rfl rfl (by intro ip h; cases h; rfl) (by intro d h; cases h; rfl) rfl rfl).1 rfl).1,
   ((UpdateHostSettings_endpoint_adoption exWorld exStateNoEndpoint false exServer rfl rfl
        rfl rfl (by intro ip h; cases h; rfl) (by intro d h; cases h; rfl) rfl rfl).1
        rfl).2.2.1,
   ((UpdateHostSettings_endpoint_adoption exWorldMoved exState false exServer rfl rfl
        rfl rfl (by intro ip h; cases h; rfl) (by intro d h; cases h; rfl) rfl rfl).2
        (by decide) (by decide) (by decide) (by decide)).2.2⟩

/-- C3, refuted as stated: in `exWorldNoServer` the host is not static, its
stored `EndpointIP` is unset, the public IP `203.0.113.5` is observed, every
other observable equals the stored value and persistence would succeed; yet
`UpdateHostSettings` returns `server config is nil` at its first check and the
stored `EndpointIP` stays unset. -/
theorem UpdateHostSettings_no_adoption_without_server :
    exStateNoEndpoint.Netclient.Host.IsStatic = false
    ∧ exStateNoEndpoint.Netclient.Host.EndpointIP = none
    ∧ exWorldNoServer.HostPublicIP = some [203, 0, 113, 5]
    ∧ exWorldNoServer.WgPublicListenPort = exStateNoEndpoint.Netclient.Host.WgPublicListenPort
    ∧ exWorldNoServer.HostNatType = exStateNoEndpoint.Netclient.Host.NatType
    ∧ exWorldNoServer.getInterfaces = .ok (some exStateNoEndpoint.Netclient.Host.Interfaces)
    ∧ exWorldNoServer.getDefaultInterface
        = .ok exStateNoEndpoint.Netclient.Host.DefaultInterface
    ∧ exWorldNoServer.FirewallHasChanged = false
    ∧ (∀ cfg, exWorldNoServer.writeError cfg = none)
    ∧ (UpdateHostSettings exWorldNoServer exStateNoEndpoint false).2.2
        = some "server config is nil"
    ∧ (UpdateHostSettings exWorldNoServer exStateNoEndpoint false).1.Netclient.Host.EndpointIP
        = none := by
  refine ⟨rfl, rfl, rfl, rfl, rfl, rfl, rfl, rfl, fun _ => rfl, ?_, ?_⟩ <;> decide

/-! ## The Transport Publisher -/

/-- The result of `publish` once the server is found, both keys convert and
`Chunk` succeeds. -/
theorem publish_encrypted (w : World) (st : State) (serverName dest : String) (msg : Plain)
    (qos : Nat) (server : Server) (pub priv : Key)
    (hserver : GetServer w serverName = some server)
    (hpub : w.ConvertBytesToKey server.TrafficKey = .ok pub)
    (hpriv : w.ConvertBytesToKey st.Netclient.TrafficKeyPrivate = .ok priv)
    (hchunk : w.chunkError msg pub priv = none) :
    publish w st serverName dest msg qos
      = ([Event.publish serverName dest msg qos,
          Event.mqPublish dest qos false (.chunked msg pub priv)],
         if (w.token dest qos false (.chunked msg pub priv)).WaitTimeout = false
            ∨ (w.token dest qos false (.chunked msg pub priv)).Error ≠ none then
           some (match (w.token dest qos false (.chunked msg pub priv)).Error with
                 | none => "connection timeout"
                 | some e => e)
         else none) := by
  simp only [publish, Chunk, hserver, hpub, hpriv, hchunk]
  split <;> simp_all

/-- C9: for every call of `publish` in which the server config exists, both
keys convert and `Chunk` succeeds, the ciphertext is handed to the pub/sub
client exactly once, on the given topic at the given QoS with retain false;
`publish` returns an error exactly when the wait of the token timed out or
the token reports an error: the error of the token when it has one,
`connection timeout` otherwise; and nil in every other such call.  When the
server config is missing, `publish` returns an error and the pub/sub client
is not invoked. -/
theorem publish_contract (w : World) (st : State) (serverName dest : String) (msg : Plain)
    (qos : Nat) :
    (∀ server pub priv, GetServer w serverName = some server →
        w.ConvertBytesToKey server.TrafficKey = .ok pub →
        w.ConvertBytesToKey st.Netclient.TrafficKeyPrivate = .ok priv →
        w.chunkError msg pub priv = none →
        (publish w st serverName dest msg qos).1.filter Event.isMqPublish
          = [Event.mqPublish dest qos false (.chunked msg pub priv)]
        ∧ ((publish w st serverName dest msg qos).2 ≠ none ↔
            ((w.token dest qos false (.chunked msg pub priv)).WaitTimeout = false
              ∨ (w.token dest qos false (.chunked msg pub priv)).Error ≠ none))
        ∧ (∀ e, (w.token dest qos false (.chunked msg pub priv)).Error = some e →
            (publish w st serverName dest msg qos).2 = some e)
        ∧ ((w.token dest qos false (.chunked msg pub priv)).Error = none →
            (w.token dest qos false (.chunked msg pub priv)).WaitTimeout = false →
            (publish w st serverName dest msg qos).2 = some "connection timeout")
        ∧ ((w.token dest qos false (.chunked msg pub priv)).Error = none →
            (w.token dest qos false (.chunked msg pub priv)).WaitTimeout = true →
            (publish w st serverName dest msg qos).2 = none))
    ∧ (GetServer w serverName = none →
        (publish w st serverName dest msg qos).2 = some "server config is nil"
        ∧ (publish w st serverName dest msg qos).1.filter Event.isMqPublish = []) := by
  constructor
  · intro server pub priv hserver hpub hpriv hchunk
    rw [publish_encrypted w st serverName dest msg qos server pub priv hserver hpub hpriv
      hchunk]
    refine ⟨by simp [Event.isMqPublish], ?_, ?_, ?_, ?_⟩
    · simp only []
      split <;> simp_all
    · intro e he
      simp [he]
    · intro he hw
      simp [he, hw]
    · intro he hw
      simp [he, hw]
  · intro hnone
    simp [publish, hnone, Event.isMqPublish]

/-- Witness of C9: a publish in `exWorld`, acknowledged in time. -/
theorem publish_contract_witness :
    (publish exWorld exState "srv" "signal/srv/n1" (.bytes [ACK]) 1).1.filter Event.isMqPublish
      = [Event.mqPublish "signal/srv/n1" 1 false (.chunked (.bytes [ACK]) [7] [9])]
    ∧ (publish exWorld exState "srv" "signal/srv/n1" (.bytes [ACK]) 1).2 = none :=
  ⟨((publish_contract exWorld exState "srv" "signal/srv/n1" (.bytes [ACK]) 1).1
      exServer [7] [9] rfl rfl rfl rfl).1,
   ((publish_contract exWorld exState "srv" "signal/srv/n1" (.bytes [ACK]) 1).1
      exServer [7] [9] rfl rfl rfl rfl).2.2.2.2 rfl rfl⟩

/-! ## Peer signals -/

/-- C7, as amended: when the server config of the node exists, both keys
convert and `Chunk` succeeds, `publishSignal(node, b)` hands the pub/sub
client exactly once, on topic `signal/{server}/{nodeID}` at QoS 1 and not
retained, the output of `Chunk` for the one-byte message `[b]` under the
public key of the server and the private key of the host; and in no case does
its trace hold a call of `Mqclient.Publish` with a raw payload. -/
theorem publishSignal_hands_chunked_byte (w : World) (st : State) (node : Node) (b : Nat)
    (server : Server) (pub priv : Key)
    (hserver : GetServer w node.Server = some server)
    (hpub : w.ConvertBytesToKey server.TrafficKey = .ok pub)
    (hpriv : w.ConvertBytesToKey st.Netclient.TrafficKeyPrivate = .ok priv)
    (hchunk : w.chunkError (.bytes [b]) pub priv = none) :
    (publishSignal w st node b).1.filter Event.isMqPublish
      = [Event.mqPublish ("signal/" ++ node.Server ++ "/" ++ node.ID) 1 false
          (.chunked (.bytes [b]) pub priv)]
    ∧ (∀ w' st' topic qos retained bs,
        Event.mqPublish topic qos retained (.raw bs) ∉ (publishSignal w' st' node b).1) := by
  constructor
  · unfold publishSignal
    rw [publish_encrypted w st _ _ _ _ server pub priv hserver hpub hpriv hchunk]
    simp [Event.isMqPublish]
  · intro w' st' topic qos retained bs
    unfold publishSignal
    rcases publish_events w' st' node.Server ("signal/" ++ node.Server ++ "/" ++ node.ID)
      (.bytes [b]) 1 with h | ⟨_, _, h⟩ <;> simp [h]

/-- Witness of C7 as amended: the signal `ACK` of `exNode` in `exWorld`. -/
theorem publishSignal_hands_chunked_byte_witness :
    (publishSignal exWorld exState exNode ACK).1.filter Event.isMqPublish
      = [Event.mqPublish "signal/srv/n1" 1 false (.chunked (.bytes [1]) [7] [9])] :=
  (publishSignal_hands_chunked_byte exWorld exState exNode ACK exServer [7] [9] rfl rfl rfl
    rfl).1

/-- C7, refuted as stated: for `exNode` and the signal `ACK` in `exWorld`,
where every step of `publish` succeeds, the payload handed to the pub/sub
client on `signal/srv/n1` is the output of `Chunk` for `[1]`, not the raw
byte sequence `[1]`. -/
theorem publishSignal_payload_not_raw :
    (publishSignal exWorld exState exNode ACK).2 = none
    ∧ (publishSignal exWorld exState exNode ACK).1.filter Event.isMqPublish
      ≠ [Event.mqPublish "signal/srv/n1" 1 false (.raw [ACK])]
    ∧ Event.mqPublish "signal/srv/n1" 1 false (.raw [ACK])
      ∉ (publishSignal exWorld exState exNode ACK).1 := by
  refine ⟨?_, ?_, ?_⟩ <;> decide

/-! ## Probe errors -/

/-- Once the server is found and persistence does not fail, the value that
`UpdateHostSettings` returns is the error of `getDefaultInterface()`. -/
theorem UpdateHostSettings_returns_probe_error (w : World) (st : State) (fallback : Bool)
    (server : Server) (e : Err)
    (hserver : GetServer w w.CurrServer = some server)
    (hprobe : w.getDefaultInterface = .error e)
    (hwrite : ∀ cfg, w.writeError cfg = none) :
    (UpdateHostSettings w st fallback).2.2 = some e := by
  rw [UpdateHostSettings_found w st fallback server hserver]
  simp only [hwrite]
  have herr := runChecks_err w server fallback st.Netclient.Host
  rw [hprobe] at herr
  split <;> exact herr

/-- C8, the code at the failing input: in `exWorldNoGateway` the server
config exists, persistence cannot fail and only `getDefaultInterface()`
fails; `UpdateHostSettings(false)` returns the error of the probe, and the
normal path of the scheduler ends without any `CheckIn` message.  In
`exWorldNoInterfaces`, where only `getInterfaces()` fails, it returns nil and
the `CheckIn` message is published. -/
theorem UpdateHostSettings_surfaces_default_interface_error :
    GetServer exWorldNoGateway exWorldNoGateway.CurrServer = some exServer
    ∧ (∀ cfg, exWorldNoGateway.writeError cfg = none)
    ∧ (UpdateHostSettings exWorldNoGateway exState false).2.2
        = some "default gateway not found"
    ∧ CheckinTick exWorldNoGateway exState = checkin exWorldNoGateway exState
    ∧ (CheckinTick exWorldNoGateway exState).2.filter (Event.sendsAction .CheckIn) = []
    ∧ (UpdateHostSettings exWorldNoInterfaces exState false).2.2 = none
    ∧ ((CheckinTick exWorldNoInterfaces exState).2.filter Event.isMqPublish).length = 1 := by
  refine ⟨rfl, fun _ => rfl, ?_, ?_, ?_, ?_, ?_⟩ <;> decide

/-! ## The host configuration inside the envelope -/

theorem carriesPersisted_silent (persisted : Host) (quiet rest : List Event)
    (hquiet : quiet.all Event.isSilent = true) :
    carriesPersisted persisted (quiet ++ rest) = carriesPersisted persisted rest := by
  induction quiet with
  | nil => rfl
  | cons e quiet ih =>
    simp only [List.all_cons, Bool.and_eq_true] at hquiet
    have ih' := ih hquiet.2
    cases e <;> simp_all [carriesPersisted, Event.carriedHost, Event.isSilent]

theorem carriesOnly_silent (h : Host) (quiet : List Event)
    (hquiet : quiet.all Event.isSilent = true) : carriesOnly h quiet = true := by
  unfold carriesOnly
  rw [List.all_eq_true] at hquiet ⊢
  intro e he
  have hs := hquiet e he
  cases e <;> simp_all [Event.carriedHost, Event.isSilent]

theorem runChecks_events_silent (w : World) (server : Server) (fallback : Bool) (host : Host) :
    (runChecks w server fallback host).events.all Event.isSilent = true := by
  rw [List.all_eq_true]
  intro e he
  have hnone := runChecks_events_filter (fun e => !e.isSilent) w server fallback host
    (fun _ _ => rfl) rfl
  rw [List.filter_eq_nil_iff] at hnone
  simpa using hnone e he

theorem hostUpdateFallback_carriesOnly (w : World) (st : State) (action : HostMqAction)
    (node : Option ModelsNode) :
    carriesOnly st.Netclient.Host (hostUpdateFallback w st action node).1 = true := by
  rcases hostUpdateFallback_events w st action node with h | ⟨_, _, _, _, h⟩ <;>
    simp [h, carriesOnly, Event.carriedHost]

theorem PublishHostUpdate_carriesOnly (w : World) (st : State) (server : String)
    (action : HostMqAction) :
    carriesOnly st.Netclient.Host (PublishHostUpdate w st server action).1 = true := by
  rcases PublishHostUpdate_events w st server action with h | h | ⟨_, _, h⟩ <;>
    simp [h, carriesOnly, Event.carriedHost]

theorem carriesOnly_append (h : Host) (a b : List Event) :
    carriesOnly h (a ++ b) = (carriesOnly h a && carriesOnly h b) := by
  simp [carriesOnly, List.all_append]

theorem UpdateHostSettings_carriesOnly (w : World) (st : State) (fallback : Bool) :
    carriesOnly (UpdateHostSettings w st fallback).1.Netclient.Host
      (UpdateHostSettings w st fallback).2.1 = true := by
  cases hserver : GetServer w w.CurrServer with
  | none => simp [UpdateHostSettings, hserver, carriesOnly]
  | some server =>
    have hquiet := runChecks_events_silent w server fallback st.Netclient.Host
    rw [UpdateHostSettings_found w st fallback server hserver]
    simp only []
    split
    · split
      · rw [carriesOnly_append, Bool.and_eq_true]
        exact ⟨carriesOnly_silent _ _ hquiet, rfl⟩
      · rw [carriesOnly_append, carriesOnly_append, Bool.and_eq_true, Bool.and_eq_true]
        refine ⟨⟨carriesOnly_silent _ _ hquiet, rfl⟩, ?_⟩
        split
        · exact hostUpdateFallback_carriesOnly w _ .UpdateHost none
        · exact PublishHostUpdate_carriesOnly w _ w.CurrServer .UpdateHost
    · exact carriesOnly_silent _ _ hquiet

theorem UpdateHostSettings_carriesPersisted (w : World) (st : State) (fallback : Bool) :
    carriesPersisted st.Persisted.Host (UpdateHostSettings w st fallback).2.1 = true := by
  cases hserver : GetServer w w.CurrServer with
  | none => simp [UpdateHostSettings, hserver, carriesPersisted]
  | some server =>
    have hquiet := runChecks_events_silent w server fallback st.Netclient.Host
    rw [UpdateHostSettings_found w st fallback server hserver]
    simp only []
    split
    · split
      · rw [carriesPersisted_silent _ _ _ hquiet]
        rfl
      · rw [List.append_assoc, carriesPersisted_silent _ _ _ hquiet]
        split
        · rcases hostUpdateFallback_events w
            ⟨{ st.Netclient with Host := (runChecks w server fallback st.Netclient.Host).host },
             { st.Netclient with Host := (runChecks w server fallback st.Netclient.Host).host }⟩
            .UpdateHost none with h | ⟨_, _, _, _, h⟩ <;>
            simp [h, carriesPersisted, Event.carriedHost]
        · rcases PublishHostUpdate_events w
            ⟨{ st.Netclient with Host := (runChecks w server fallback st.Netclient.Host).host },
             { st.Netclient with Host := (runChecks w server fallback st.Netclient.Host).host }⟩
            w.CurrServer .UpdateHost with h | h | ⟨_, _, h⟩ <;>
            simp [h, carriesPersisted, Event.carriedHost]
    · have h := carriesPersisted_silent st.Persisted.Host _ [] hquiet
      rw [List.append_nil] at h
      rw [h]
      rfl

theorem checkin_carriesOnly (w : World) (st : State) :
    carriesOnly (checkin w st).1.Netclient.Host (checkin w st).2 = true := by
  have h := UpdateHostSettings_carriesOnly w st false
  unfold checkin
  split
  · next st1 events e heq =>
    rw [heq] at h
    exact h
  · next st1 events heq =>
    rw [heq] at h
    rw [carriesOnly_append, Bool.and_eq_true]
    exact ⟨h, PublishHostUpdate_carriesOnly w st1 w.CurrServer .CheckIn⟩

theorem checkinFallback_carriesOnly (w : World) (st : State) :
    carriesOnly (checkinFallback w st).1.Netclient.Host (checkinFallback w st).2 = true := by
  have h := UpdateHostSettings_carriesOnly w st true
  unfold checkinFallback
  split
  · next st1 events e heq =>
    rw [heq] at h
    exact h
  · next st1 events heq =>
    rw [heq] at h
    rw [carriesOnly_append, Bool.and_eq_true]
    exact ⟨h, hostUpdateFallback_carriesOnly w st1 .CheckIn none⟩

theorem Push_carriesOnly (w : World) (st : State) (restart : Bool) :
    carriesOnly st.Netclient.Host (Push w st restart).2.1 = true := by
  have hsent : carriesOnly st.Netclient.Host
      (match GetServer w w.CurrServer with
        | none => (([], none) : List Event × Option Err)
        | some server =>
          match w.setupMQTTSingleton server with
          | none => PublishHostUpdate w st server.Server .UpdateHost
          | some _ => hostUpdateFallback w st .UpdateHost none).1 = true := by
    split
    · rfl
    · split
      · exact PublishHostUpdate_carriesOnly w st _ .UpdateHost
      · exact hostUpdateFallback_carriesOnly w st .UpdateHost none
  simp only [Push, WriteNetclientConfig]
  generalize (match GetServer w w.CurrServer with
        | none => (([], none) : List Event × Option Err)
        | some server =>
          match w.setupMQTTSingleton server with
          | none => PublishHostUpdate w st server.Server .UpdateHost
          | some _ => hostUpdateFallback w st .UpdateHost none) = sent at hsent
  have hquiet1 : ∀ cfg ok, carriesOnly st.Netclient.Host [Event.writeNetclientConfig cfg ok]
      = true := fun _ _ => rfl
  have hquiet2 : carriesOnly st.Netclient.Host [Event.daemonRestart] = true := rfl
  have hquiet3 : carriesOnly st.Netclient.Host [Event.daemonRestart, Event.daemonStart]
      = true := rfl
  cases hw : w.writeError st.Netclient with
  | some e =>
    simp only []
    repeat' split
    all_goals simp_all [carriesOnly_append]
  | none =>
    simp only []
    repeat' split
    all_goals (simp_all [carriesOnly_append] <;> rfl)

theorem publishPeerSignal_carriesOnly (w : World) (st : State) (server : String)
    (signal : Signal) :
    carriesOnly st.Netclient.Host (publishPeerSignal w st server signal).1 = true := by
  unfold publishPeerSignal
  simp only []
  split
  · rfl
  · rcases publish_events w st server
      ("host/serverupdate/" ++ server ++ "/" ++ st.Netclient.Host.ID)
      (.hostUpdate { Action := .SignalHost, Host := st.Netclient.Host, Signal := signal }) 1
      with h | ⟨_, _, h⟩ <;> simp [h, carriesOnly, Event.carriedHost]

/-- C6, as amended: on every path that emits a ControlMessage the envelope
handed to a transport carries the in-memory host configuration as it stands
when the message is built: the configuration left by `UpdateHostSettings` for
`UpdateHostSettings`, `checkin` and `checkinFallback`, the current one for
`Push` and `publishPeerSignal`.  Along the trace of `UpdateHostSettings`
itself it is also the configuration in durable storage at that moment, its
`UpdateHost` message being sent only after a successful
`config.WriteNetclientConfig` of that configuration. -/
theorem envelope_carries_in_memory_host (w : World) (st : State) :
    (∀ fallback,
      carriesPersisted st.Persisted.Host (UpdateHostSettings w st fallback).2.1 = true)
    ∧ (∀ fallback, carriesOnly (UpdateHostSettings w st fallback).1.Netclient.Host
        (UpdateHostSettings w st fallback).2.1 = true)
    ∧ carriesOnly (checkin w st).1.Netclient.Host (checkin w st).2 = true
    ∧ carriesOnly (checkinFallback w st).1.Netclient.Host (checkinFallback w st).2 = true
    ∧ (∀ restart, carriesOnly st.Netclient.Host (Push w st restart).2.1 = true)
    ∧ (∀ server signal,
        carriesOnly st.Netclient.Host (publishPeerSignal w st server signal).1 = true) :=
  ⟨fun fallback => UpdateHostSettings_carriesPersisted w st fallback,
   fun fallback => UpdateHostSettings_carriesOnly w st fallback,
   checkin_carriesOnly w st, checkinFallback_carriesOnly w st,
   fun restart => Push_carriesOnly w st restart,
   fun server signal => publishPeerSignal_carriesOnly w st server signal⟩

/-- C6, refuted as stated: from `exStateNoEndpoint`, where the in-memory
configuration is the persisted one and no endpoint is known, `checkin` in
`exWorld` adopts `203.0.113.5` in memory, writes nothing, and hands the
pub/sub client a `CheckIn` envelope carrying that endpoint while the
configuration in durable storage still has none; a `Push` in the state it
leaves publishes the same unpersisted configuration before it persists it. -/
theorem checkin_sends_unpersisted_endpoint :
    exStateNoEndpoint.Netclient = exStateNoEndpoint.Persisted
    ∧ (checkin exWorld exStateNoEndpoint).2.filter Event.isWrite = []
    ∧ (checkin exWorld exStateNoEndpoint).2.filterMap Event.carriedHost
        = [{ exHost with EndpointIP := some [203, 0, 113, 5] }]
    ∧ (checkin exWorld exStateNoEndpoint).1.Persisted.Host.EndpointIP = none
    ∧ carriesPersisted exStateNoEndpoint.Persisted.Host
        (checkin exWorld exStateNoEndpoint).2 = false
    ∧ carriesPersisted (checkin exWorld exStateNoEndpoint).1.Persisted.Host
        (Push exWorld (checkin exWorld exStateNoEndpoint).1 false).2.1 = false := by
  refine ⟨?_, ?_, ?_, ?_, ?_, ?_⟩ <;> decide

end Netclient
